import Mathlib

/-!
Verification of the libnavajo `WebServer` connection/admission engine
(`src/include/libnavajo/WebServer.hh`) against its specification.

The repository ships only the class header; member functions whose bodies
are absent from the sources (base64 codec, SHA-1, admission pipeline,
shutdown signal) are modelled from the specification, with a doc comment
saying so.  Everything defined inline in the header (`addLoginPass`,
`setWebServerName`, `getPeerIpHistory`, `stopService`, `isRunning`,
`freeClientSockData`, the member declarations themselves) is transcribed
from the source.
-/

namespace LibNavajo

/-! ## Base64 codec -/

/-- Source: `static const string base64_chars` — the standard base64
alphabet used by `base64_encode`/`base64_decode`. -/
def base64_chars : List Char :=
  ['A','B','C','D','E','F','G','H','I','J','K','L','M',
   'N','O','P','Q','R','S','T','U','V','W','X','Y','Z',
   'a','b','c','d','e','f','g','h','i','j','k','l','m',
   'n','o','p','q','r','s','t','u','v','w','x','y','z',
   '0','1','2','3','4','5','6','7','8','9','+','/']

/-- Encode one sextet (a value `< 64`) as its base64 alphabet character. -/
def encSext (n : Nat) : Char := base64_chars.getD n '='

/-- Decode one base64 alphabet character back to its sextet value (its
index in `base64_chars`, computed from the code point); `none` for
characters outside the alphabet.  The agreement with the alphabet list
itself is proved in `decSext_encSext`. -/
def decSext (c : Char) : Option Nat :=
  let k := c.toNat
  if 65 ≤ k ∧ k ≤ 90 then some (k - 65)
  else if 97 ≤ k ∧ k ≤ 122 then some (k - 71)
  else if 48 ≤ k ∧ k ≤ 57 then some (k + 4)
  else if k = 43 then some 62
  else if k = 47 then some 63
  else none

/-- Modelled from the spec: `WebServer::base64_encode(bytes, in_len)` —
the body is not among the sources, only its declaration.  Standard base64:
bytes are consumed three at a time, emitting four alphabet characters,
with `=` padding for a final group of one or two bytes. -/
def base64_encode : List Nat → List Char
  | [] => []
  | [b0] => [encSext (b0 / 4), encSext (b0 % 4 * 16), '=', '=']
  | [b0, b1] => [encSext (b0 / 4), encSext (b0 % 4 * 16 + b1 / 16),
                 encSext (b1 % 16 * 4), '=']
  | b0 :: b1 :: b2 :: rest =>
      encSext (b0 / 4) :: encSext (b0 % 4 * 16 + b1 / 16) ::
      encSext (b1 % 16 * 4 + b2 / 64) :: encSext (b2 % 64) ::
      base64_encode rest

/-- Modelled from the spec: `WebServer::base64_decode` — the body is not
among the sources, only its declaration.  The spec requires a total
decoder that "rejects malformed base64 without crashing (defined failure,
not undefined behavior)": characters are consumed four at a time, `=`
padding (code point 61) is accepted only in a final group, and every
malformed input yields `none`. -/
def base64_decode : List Char → Option (List Nat)
  | [] => some []
  | c0 :: c1 :: c2 :: c3 :: rest =>
      match decSext c0, decSext c1 with
      | some d0, some d1 =>
        if c2.toNat = 61 then
          if c3.toNat = 61 then
            if rest = [] then some [d0 * 4 + d1 / 16] else none
          else none
        else
          match decSext c2 with
          | some d2 =>
            if c3.toNat = 61 then
              if rest = [] then
                some [d0 * 4 + d1 / 16, d1 % 16 * 16 + d2 / 4]
              else none
            else
              match decSext c3 with
              | some d3 =>
                match base64_decode rest with
                | some tail =>
                    some ((d0 * 4 + d1 / 16) :: (d1 % 16 * 16 + d2 / 4) ::
                          (d2 % 4 * 64 + d3) :: tail)
                | none => none
              | none => none
          | none => none
      | _, _ => none
  | _ => none

theorem decSext_lt {c : Char} {d : Nat} (h : decSext c = some d) : d < 64 := by
  simp only [decSext] at h
  split_ifs at h with h1 h2 h3 h4 h5 <;>
    simp only [Option.some.injEq] at h <;> omega

theorem decSext_encSext : ∀ n, n < 64 → decSext (encSext n) = some n := by
  decide

theorem encSext_ne_pad : ∀ n, n < 64 → (encSext n).toNat ≠ 61 := by
  decide

/-- Round-trip for the base64 model: decoding an encoding recovers the
bytes, provided each byte is in range. -/
theorem base64_decode_encode :
    ∀ b : List Nat, (∀ x ∈ b, x < 256) →
      base64_decode (base64_encode b) = some b := by
  intro b
  induction b using base64_encode.induct with
  | case1 =>
    intro _
    simp [base64_encode, base64_decode]
  | case2 b0 =>
    intro h
    have hb0 : b0 < 256 := h b0 (by simp)
    have h0 : b0 / 4 < 64 := by omega
    have h1 : b0 % 4 * 16 < 64 := by omega
    have e0 : b0 / 4 * 4 + b0 % 4 * 16 / 16 = b0 := by omega
    simp [base64_encode, base64_decode,
      decSext_encSext _ h0, decSext_encSext _ h1, e0]
    omega
  | case3 b0 b1 =>
    intro h
    have hb0 : b0 < 256 := h b0 (by simp)
    have hb1 : b1 < 256 := h b1 (by simp)
    have h0 : b0 / 4 < 64 := by omega
    have h1 : b0 % 4 * 16 + b1 / 16 < 64 := by omega
    have h2 : b1 % 16 * 4 < 64 := by omega
    have e0 : b0 / 4 * 4 + (b0 % 4 * 16 + b1 / 16) / 16 = b0 := by omega
    have e1 : (b0 % 4 * 16 + b1 / 16) % 16 * 16 + b1 % 16 * 4 / 4 = b1 := by
      omega
    simp [base64_encode, base64_decode,
      decSext_encSext _ h0, decSext_encSext _ h1, decSext_encSext _ h2,
      encSext_ne_pad _ h2, e0, e1]
    omega
  | case4 b0 b1 b2 rest ih =>
    intro h
    have hb0 : b0 < 256 := h b0 (by simp)
    have hb1 : b1 < 256 := h b1 (by simp)
    have hb2 : b2 < 256 := h b2 (by simp)
    have hrest : ∀ x ∈ rest, x < 256 := by
      intro x hx; exact h x (by simp [hx])
    have h0 : b0 / 4 < 64 := by omega
    have h1 : b0 % 4 * 16 + b1 / 16 < 64 := by omega
    have h2 : b1 % 16 * 4 + b2 / 64 < 64 := by omega
    have h3 : b2 % 64 < 64 := by omega
    have e0 : b0 / 4 * 4 + (b0 % 4 * 16 + b1 / 16) / 16 = b0 := by omega
    have e1 : (b0 % 4 * 16 + b1 / 16) % 16 * 16 +
        (b1 % 16 * 4 + b2 / 64) / 4 = b1 := by omega
    have e2 : (b1 % 16 * 4 + b2 / 64) % 4 * 64 + b2 % 64 = b2 := by omega
    simp [base64_encode, base64_decode,
      decSext_encSext _ h0, decSext_encSext _ h1, decSext_encSext _ h2,
      decSext_encSext _ h3, encSext_ne_pad _ h2, encSext_ne_pad _ h3,
      ih hrest, e0, e1, e2]

/-- Any successful decode yields genuine bytes (each value `< 256`):
auxiliary strong induction on the input length. -/
theorem base64_decode_bytes_aux :
    ∀ (n : Nat) (s : List Char), s.length ≤ n →
      ∀ bs, base64_decode s = some bs → ∀ x ∈ bs, x < 256 := by
  intro n
  induction n with
  | zero =>
    intro s hs bs h x hx
    have hnil : s = [] := List.eq_nil_of_length_eq_zero (Nat.le_zero.mp hs)
    subst hnil
    simp only [base64_decode, Option.some.injEq] at h
    subst h
    simp at hx
  | succ n ih =>
    intro s hs bs h x hx
    match s with
    | [] =>
      simp only [base64_decode, Option.some.injEq] at h
      subst h
      simp at hx
    | [c0] =>
      simp only [show base64_decode [c0] = none from rfl] at h
      exact Option.noConfusion h
    | [c0, c1] =>
      simp only [show base64_decode [c0, c1] = none from rfl] at h
      exact Option.noConfusion h
    | [c0, c1, c2] =>
      simp only [show base64_decode [c0, c1, c2] = none from rfl] at h
      exact Option.noConfusion h
    | c0 :: c1 :: c2 :: c3 :: rest =>
      simp only [base64_decode] at h
      rcases h0 : decSext c0 with _ | d0 <;> rw [h0] at h
      · simp at h
      rcases h1 : decSext c1 with _ | d1 <;> rw [h1] at h
      · simp at h
      simp only at h
      have hd0 := decSext_lt h0
      have hd1 := decSext_lt h1
      by_cases hc2 : c2.toNat = 61
      · rw [if_pos hc2] at h
        by_cases hc3 : c3.toNat = 61
        · rw [if_pos hc3] at h
          by_cases hr : rest = []
          · rw [if_pos hr] at h
            simp only [Option.some.injEq] at h
            subst h
            simp at hx
            omega
          · rw [if_neg hr] at h; simp at h
        · rw [if_neg hc3] at h; simp at h
      · rw [if_neg hc2] at h
        rcases h2 : decSext c2 with _ | d2 <;> rw [h2] at h
        · simp at h
        simp only at h
        have hd2 := decSext_lt h2
        by_cases hc3 : c3.toNat = 61
        · rw [if_pos hc3] at h
          by_cases hr : rest = []
          · rw [if_pos hr] at h
            simp only [Option.some.injEq] at h
            subst h
            simp at hx
            rcases hx with rfl | rfl <;> omega
          · rw [if_neg hr] at h; simp at h
        · rw [if_neg hc3] at h
          rcases h3 : decSext c3 with _ | d3 <;> rw [h3] at h
          · simp at h
          simp only at h
          have hd3 := decSext_lt h3
          rcases ht : base64_decode rest with _ | tail <;> rw [ht] at h
          · simp at h
          simp only [Option.some.injEq] at h
          subst h
          have hlen : rest.length ≤ n := by
            simp only [List.length_cons] at hs
            omega
          have htail := ih rest hlen tail ht
          simp at hx
          rcases hx with rfl | rfl | rfl | hx
          · omega
          · omega
          · omega
          · exact htail x hx

/-- Every value the decoder produces is a genuine byte sequence: the
decoder is total (`Option`-valued) and never emits a value `≥ 256`. -/
theorem base64_decode_wellformed :
    ∀ s : List Char, base64_decode s = none ∨
      ∃ bs, base64_decode s = some bs ∧ ∀ x ∈ bs, x < 256 := by
  intro s
  rcases h : base64_decode s with _ | bs
  · exact Or.inl rfl
  · exact Or.inr ⟨bs, rfl, base64_decode_bytes_aux s.length s le_rfl bs h⟩

/-! ## SHA-1 and the WebSocket accept key -/

/-- `2 ^ 32`, the modulus of 32-bit machine arithmetic. -/
def w32 : Nat := 4294967296

/-- Rotate a 32-bit value left by `n` bits. -/
def rotl (n x : Nat) : Nat := (x * 2 ^ n + x / 2 ^ (32 - n)) % w32

/-- The SHA-1 round function, selected by the round index. -/
def sha1F (i b c d : Nat) : Nat :=
  if i < 20 then Nat.lor (Nat.land b c) (Nat.land (Nat.xor b 4294967295) d)
  else if i < 40 then Nat.xor (Nat.xor b c) d
  else if i < 60 then
    Nat.lor (Nat.lor (Nat.land b c) (Nat.land b d)) (Nat.land c d)
  else Nat.xor (Nat.xor b c) d

/-- The SHA-1 round constant, selected by the round index. -/
def sha1K (i : Nat) : Nat :=
  if i < 20 then 1518500249
  else if i < 40 then 1859775393
  else if i < 60 then 2400959708
  else 3395469782

/-- Group bytes four at a time into big-endian 32-bit words. -/
def toWords : List Nat → List Nat
  | b0 :: b1 :: b2 :: b3 :: rest =>
      (((b0 * 256 + b1) * 256 + b2) * 256 + b3) :: toWords rest
  | _ => []

/-- Append the next word of the SHA-1 message schedule. -/
def extendStep (ws : List Nat) : List Nat :=
  let n := ws.length
  ws ++ [rotl 1 (Nat.xor (Nat.xor (ws.getD (n - 3) 0) (ws.getD (n - 8) 0))
                 (Nat.xor (ws.getD (n - 14) 0) (ws.getD (n - 16) 0)))]

/-- Extend the 16 block words to the 80-word message schedule. -/
def extendWords (ws : List Nat) : List Nat :=
  (List.range 64).foldl (fun acc _ => extendStep acc) ws

/-- The five 32-bit working registers of SHA-1. -/
structure Sha1State where
  a : Nat
  b : Nat
  c : Nat
  d : Nat
  e : Nat
deriving DecidableEq

/-- One SHA-1 compression round; `iw` is the round index and its word. -/
def sha1Round (st : Sha1State) (iw : Nat × Nat) : Sha1State :=
  let t := (rotl 5 st.a + sha1F iw.1 st.b st.c st.d + st.e
            + sha1K iw.1 + iw.2) % w32
  ⟨t, st.a, rotl 30 st.b, st.c, st.d⟩

/-- Compress one 64-byte block into the running state. -/
def sha1Block (h : Sha1State) (block : List Nat) : Sha1State :=
  let ws := extendWords (toWords block)
  let st := ws.enum.foldl sha1Round h
  ⟨(h.a + st.a) % w32, (h.b + st.b) % w32, (h.c + st.c) % w32,
   (h.d + st.d) % w32, (h.e + st.e) % w32⟩

/-- The 8-byte big-endian encoding of a message bit length. -/
def lenBytes8 (n : Nat) : List Nat :=
  [n / 2 ^ 56 % 256, n / 2 ^ 48 % 256, n / 2 ^ 40 % 256, n / 2 ^ 32 % 256,
   n / 2 ^ 24 % 256, n / 2 ^ 16 % 256, n / 2 ^ 8 % 256, n % 256]

/-- SHA-1 padding: a `0x80` byte, zeros to 56 mod 64, then the length. -/
def sha1Pad (msg : List Nat) : List Nat :=
  let l := msg.length
  msg ++ 128 :: List.replicate ((119 - l % 64) % 64) 0 ++ lenBytes8 (8 * l)

/-- Split a byte list into successive 64-byte blocks (structural
recursion on a fuel bound, so the kernel can evaluate it). -/
def chunks64Aux : Nat → List Nat → List (List Nat)
  | 0, _ => []
  | _, [] => []
  | fuel + 1, x :: xs => (x :: xs).take 64 :: chunks64Aux fuel (xs.drop 63)

/-- Split a byte list into successive 64-byte blocks. -/
def chunks64 (l : List Nat) : List (List Nat) := chunks64Aux l.length l

/-- The 4-byte big-endian encoding of a 32-bit word. -/
def wordBytes (w : Nat) : List Nat :=
  [w / 2 ^ 24 % 256, w / 2 ^ 16 % 256, w / 2 ^ 8 % 256, w % 256]

/-- Modelled from the spec: `WebServer::SHA1_encode` — the body is not
among the sources, only its declaration.  The spec calls for "a
cryptographic digest" in the RFC 6455 accept-key derivation, i.e. SHA-1
per the cited RFC; this is the standard SHA-1 over a byte list. -/
def sha1 (msg : List Nat) : List Nat :=
  let st := (chunks64 (sha1Pad msg)).foldl sha1Block
    ⟨1732584193, 4023233417, 2562383102, 271733878, 3285377520⟩
  wordBytes st.a ++ wordBytes st.b ++ wordBytes st.c ++
  wordBytes st.d ++ wordBytes st.e

/-- Source: `static const string webSocketMagicString` — the fixed,
protocol-defined magic string of RFC 6455, named by the spec's
WebSocket handshake contract. -/
def webSocketMagicString : String := "258EAFA5-E914-47DA-95CA-C5AB0DC85B11"

/-- The bytes of an ASCII string, one `Nat` per character. -/
def strBytes (s : String) : List Nat := s.data.map Char.toNat

/-- Pack a character list back into a string. -/
def stringOfChars (cs : List Char) : String := String.mk cs

/-- Modelled from the spec: `WebServer::generateWebSocketServerKey` — the
body is not among the sources, only its declaration.  Per the spec's
contract: concatenate the client key with the magic string, digest, and
base64-encode the digest. -/
def generateWebSocketServerKey (webSocketKey : String) : String :=
  stringOfChars (base64_encode (sha1 (strBytes
    (webSocketKey ++ webSocketMagicString))))

/-! ## IP addresses, networks and the admission engine -/

/-- Modelled from the spec: `IpAddress` (IpAddress.hh is not among the
sources) — an immutable value: an address of `width` bits (32 for IPv4,
128 for IPv6) with numeric value `value`. -/
structure IpAddress where
  width : Nat
  value : Nat
deriving DecidableEq

/-- Modelled from the spec: `IpNetwork` (IpAddress.hh is not among the
sources) — "address + prefix length", a CIDR network. -/
structure IpNetwork where
  addr : IpAddress
  prefixLen : Nat
deriving DecidableEq

/-- Modelled from the spec: the "IpAddress is member of IpNetwork" test,
with standard prefix-matching semantics: same family and equal top
`prefixLen` bits. -/
def IpNetwork.contains (net : IpNetwork) (a : IpAddress) : Bool :=
  a.width == net.addr.width &&
  a.value / 2 ^ (a.width - net.prefixLen)
    == net.addr.value / 2 ^ (net.addr.width - net.prefixLen)

/-- Modelled from the spec: the source-IP admission test over the
configured `hostsAllowed` list — an empty list admits everyone,
otherwise the peer must be a member of some listed network. -/
def ipAllowed (hostsAllowed : List IpNetwork) (peer : IpAddress) : Bool :=
  hostsAllowed.isEmpty || hostsAllowed.any (fun net => net.contains peer)

/-- Source: `addLoginPass(login, pass)` (WebServer.hh line 185) appends
the single string `login + ':' + pass` to `authLoginPwdList`. -/
def addLoginPass (authLoginPwdList : List String) (login pass : String) :
    List String :=
  authLoginPwdList ++ [login ++ ":" ++ pass]

/-- Modelled from the spec: `WebServer::isUserAllowed(logpassb64,
username)` — the body is not among the sources, only its declaration.
Per the spec: decode the base64 credential and check the decoded
`login:password` string against the configured login table; on success
the login (the part before the first colon) is the recorded username. -/
def isUserAllowed (authLoginPwdList : List String) (logpassb64 : String) :
    Option String :=
  match base64_decode logpassb64.data with
  | none => none
  | some bytes =>
    let decoded := stringOfChars (bytes.map Char.ofNat)
    if authLoginPwdList.contains decoded then
      some (stringOfChars (decoded.data.takeWhile (fun ch => ch ≠ ':')))
    else none

/-- The outcome of admission evaluation for one parsed request. -/
inductive AdmissionOutcome
  | notAuthorized
  | authChallenge
  | serviced
deriving DecidableEq

/-- The admission-relevant configuration of a `WebServer`. -/
structure AdmissionConfig where
  hostsAllowed : List IpNetwork
  httpdAuth : Bool
  authLoginPwdList : List String

/-- The admission-relevant data of one request: the peer address and the
optional base64 payload of its `Authorization: Basic` header. -/
structure AdmissionRequest where
  peerIp : IpAddress
  authB64 : Option String

/-- Modelled from the spec: the admission phase of
`WebServer::accept_request` — the body is not among the sources, only
its declaration.  Per spec §4.5 the checks run in order: (1) source-IP
membership in `hostsAllowed` (non-membership in a non-empty list rejects
with a not-authorized outcome); (2) when Basic auth is configured, the
credential check, whose failure yields a retryable challenge.  The
second component records whether `isUserAllowed` (base64 credential
decoding) was invoked. -/
def accept_request (cfg : AdmissionConfig) (req : AdmissionRequest) :
    AdmissionOutcome × Bool :=
  if ipAllowed cfg.hostsAllowed req.peerIp then
    if cfg.httpdAuth then
      match req.authB64 with
      | none => (AdmissionOutcome.authChallenge, false)
      | some b64 =>
        match isUserAllowed cfg.authLoginPwdList b64 with
        | some _ => (AdmissionOutcome.serviced, true)
        | none => (AdmissionOutcome.authChallenge, true)
    else (AdmissionOutcome.serviced, false)
  else (AdmissionOutcome.notAuthorized, false)

/-! ## Declared members of `class WebServer` (WebServer.hh lines 40–129) -/

/-- Source: the data members declared in `class WebServer`
(WebServer.hh lines 40–129), transcribed in declaration order. -/
def webServerFields : List String :=
  ["threadWebServer", "sslCtx", "s_server_session_id_context", "certpass",
   "clientsQueue", "clientsQueue_cond", "clientsQueue_mutex",
   "httpdAuth", "exiting", "exitedThread", "server_sock", "nbServerSock",
   "authStr",
   "usersAuthHistory", "usersAuthHistory_mutex",
   "peerIpHistory", "peerDnHistory", "peerDnHistory_mutex",
   "verify_depth", "webServerName", "disableIpV4", "disableIpV6",
   "tcpPort", "threadsPoolSize", "device",
   "mutipartTempDirForFileUpload", "mutipartMaxCollectedDataLength",
   "sslEnabled", "sslCertFile", "sslCaFile", "sslCertPwd",
   "authLoginPwdList", "authPeerSsl", "authDnList", "hostsAllowed",
   "webRepositories", "base64_chars", "webSocketEndPoints",
   "webSocketMagicString"]

/-- The three authentication-history maps declared in the class
(WebServer.hh lines 89–92). -/
def historyMaps : List String :=
  ["usersAuthHistory", "peerIpHistory", "peerDnHistory"]

/-! ## ClientSockData release (WebServer.hh lines 283–290) -/

/-- The admission-relevant contents of one `ClientSockData`: whether the
peer DN string is present. -/
structure ClientSockData where
  peerDN : Option String
deriving DecidableEq

/-- The primitive resource actions performed while releasing one
connection's data. -/
inductive ReleaseAction
  | closeSock
  | freeDN
  | setDNNull
  | freeStruct
deriving DecidableEq

/-- Source: `WebServer::freeClientSockData(c)` (WebServer.hh lines
283–290), as the ordered trace of resource actions it performs: a `NULL`
argument returns at once; otherwise `closeSocket(c)`, then — if
`c->peerDN != NULL` — `delete c->peerDN` and `c->peerDN = NULL`, then
`free(c)`. -/
def freeClientSockData : Option ClientSockData → List ReleaseAction
  | none => []
  | some c =>
      ReleaseAction.closeSock ::
      ((match c.peerDN with
        | some _ => [ReleaseAction.freeDN, ReleaseAction.setDNNull]
        | none => []) ++ [ReleaseAction.freeStruct])

/-- The exit paths of the per-connection pipeline named by the spec. -/
inductive PipelineExit
  | tlsFailure
  | parseFailure
  | admissionDenied
  | responded
deriving DecidableEq

/-- Modelled from the spec: the worker's per-connection pipeline
(`poolThreadProcessing`, body absent from the sources).  Per spec §3 and
§4.3, every exit path — handshake failure, parse or I/O failure,
admission denial, or a completed response — releases the connection by
exactly one call to `freeClientSockData`. -/
def runPipeline (c : ClientSockData) (ex : PipelineExit) : List ReleaseAction :=
  match ex with
  | PipelineExit.tlsFailure => freeClientSockData (some c)
  | PipelineExit.parseFailure => freeClientSockData (some c)
  | PipelineExit.admissionDenied => freeClientSockData (some c)
  | PipelineExit.responded => freeClientSockData (some c)

/-! ## Lifecycle: stopService / isRunning (WebServer.hh lines 258–279) -/

/-- The lifecycle-relevant state of a `WebServer`: the listener thread
handle, the shutdown flag, and the exited-worker counter. -/
structure ServerLifecycle where
  threadWebServer : Nat
  exiting : Bool
  exitedThread : Nat
deriving DecidableEq

/-- Modelled from the spec: `WebServer::exit()` — the body is not among
the sources, only its declaration.  Per the spec's lifecycle contract,
stop "signals shutdown, does not block": the shutdown flag is raised and
nothing waits on the workers. -/
def exitSignal (s : ServerLifecycle) : ServerLifecycle :=
  { s with exiting := true }

/-- Source: `stopService()` (WebServer.hh lines 258–263) calls `exit()`
and then clears the thread handle itself: `threadWebServer = 0`. -/
def stopService (s : ServerLifecycle) : ServerLifecycle :=
  let s1 := exitSignal s
  { s1 with threadWebServer := 0 }

/-- Source: `isRunning()` (WebServer.hh lines 276–279) returns
`threadWebServer != 0`. -/
def isRunning (s : ServerLifecycle) : Bool := s.threadWebServer != 0

/-! ## History getters (WebServer.hh lines 238–244) -/

/-- The history maps held by a server instance. -/
structure HistoryState where
  peerIpHistory : List (IpAddress × Nat)
  peerDnHistory : List (String × Nat)
deriving DecidableEq

/-- Which internal member a returned `std::map&` designates. -/
inductive MapRef
  | peerIpRef
  | peerDnRef
deriving DecidableEq

/-- Source: `getPeerIpHistory()` is `return peerIpHistory;` with return
type `std::map<IpAddress,time_t>&`: the call performs no state change
and hands back a reference designating the member itself. -/
def getPeerIpHistory (s : HistoryState) : MapRef × HistoryState :=
  (MapRef.peerIpRef, s)

/-- Source: `getPeerDnHistory()` is `return peerDnHistory;` with return
type `std::map<std::string,time_t>&`: the call performs no state change
and hands back a reference designating the member itself. -/
def getPeerDnHistory (s : HistoryState) : MapRef × HistoryState :=
  (MapRef.peerDnRef, s)

/-- A caller's insertion through a returned reference (C++
`server.getPeerIpHistory()[ip] = t;`): it lands in the server's own
member. -/
def writeThroughRef (s : HistoryState) (r : MapRef)
    (ipEntry : IpAddress × Nat) (dnEntry : String × Nat) : HistoryState :=
  match r with
  | MapRef.peerIpRef => { s with peerIpHistory := ipEntry :: s.peerIpHistory }
  | MapRef.peerDnRef => { s with peerDnHistory := dnEntry :: s.peerDnHistory }

/-! ## webServerName is static (WebServer.hh lines 103 and 138) -/

/-- Source: `static std::string webServerName` — one string for the
whole class — together with the population of instances (identified by
index; their per-instance members carry no name field). -/
structure WebServerClassState where
  webServerName : String
  instanceCount : Nat
deriving DecidableEq

/-- Source: `setWebServerName(name) { webServerName = name; }` invoked
on any one instance writes the static member. -/
def setWebServerName (s : WebServerClassState) (_callingInstance : Nat)
    (name : String) : WebServerClassState :=
  { s with webServerName := name }

/-- The server name instance `i` uses in its response headers: the
static member. -/
def observedServerName (s : WebServerClassState) (_i : Nat) : String :=
  s.webServerName

/-! ## Concrete evaluation of the RFC 6455 test vector

The digest computation is verified in small literal steps (message
schedule and compression rounds in small groups) so that each kernel
check stays small. -/

/-- The first 64-byte block of the padded RFC 6455 test-vector message. -/
def testBlock1 : List Nat := [100, 71, 104, 108, 73, 72, 78, 104, 98, 88, 66, 115, 90, 83, 66, 117, 98, 50, 53, 106, 90, 81, 61, 61, 50, 53, 56, 69, 65, 70, 65, 53, 45, 69, 57, 49, 52, 45, 52, 55, 68, 65, 45, 57, 53, 67, 65, 45, 67, 53, 65, 66, 48, 68, 67, 56, 53, 66, 49, 49, 128, 0, 0, 0]

/-- The second 64-byte block of the padded RFC 6455 test-vector message. -/
def testBlock2 : List Nat := [0, 0, 0, 0, 0, 0, 0, 0, 0, 0, 0, 0, 0, 0, 0, 0, 0, 0, 0, 0, 0, 0, 0, 0, 0, 0, 0, 0, 0, 0, 0, 0, 0, 0, 0, 0, 0, 0, 0, 0, 0, 0, 0, 0, 0, 0, 0, 0, 0, 0, 0, 0, 0, 0, 0, 0, 0, 0, 0, 0, 0, 0, 1, 224]

/-- Evaluation rule for one block, stated over abstract states so the
per-block instances below are cheap to check. -/
theorem sha1Block_eq (h st : Sha1State) (block : List Nat)
    (hst : (extendWords (toWords block)).enum.foldl sha1Round h = st) :
    sha1Block h block =
      ⟨(h.a + st.a) % w32, (h.b + st.b) % w32, (h.c + st.c) % w32,
       (h.d + st.d) % w32, (h.e + st.e) % w32⟩ := by
  simp only [sha1Block, hst]

set_option maxRecDepth 4000 in
theorem sha1_words1_start : toWords testBlock1 = [1682401388, 1229475432, 1649951347, 1515405941, 1647457642, 1515273533, 842348613, 1095123253, 759511345, 875377719, 1145122105, 893600045, 1127563586, 809780024, 893530417, 2147483648] := by
  decide

set_option maxRecDepth 4000 in
theorem sha1_sched1_c1 :
    List.foldl (fun acc _ => extendStep acc) [1682401388, 1229475432, 1649951347, 1515405941, 1647457642, 1515273533, 842348613, 1095123253, 759511345, 875377719, 1145122105, 893600045, 1127563586, 809780024, 893530417, 2147483648]
      [0, 1, 2, 3] = [1682401388, 1229475432, 1649951347, 1515405941, 1647457642, 1515273533, 842348613, 1095123253, 759511345, 875377719, 1145122105, 893600045, 1127563586, 809780024, 893530417, 2147483648, 909942828, 619188790, 2287383617, 117128338] := by
  decide

set_option maxRecDepth 4000 in
theorem sha1_sched1_c2 :
    List.foldl (fun acc _ => extendStep acc) [1682401388, 1229475432, 1649951347, 1515405941, 1647457642, 1515273533, 842348613, 1095123253, 759511345, 875377719, 1145122105, 893600045, 1127563586, 809780024, 893530417, 2147483648, 909942828, 619188790, 2287383617, 117128338]
      [4, 5, 6, 7] = [1682401388, 1229475432, 1649951347, 1515405941, 1647457642, 1515273533, 842348613, 1095123253, 759511345, 875377719, 1145122105, 893600045, 1127563586, 809780024, 893530417, 2147483648, 909942828, 619188790, 2287383617, 117128338, 1874115766, 1175131875, 1502747054, 901747561] := by
  decide

set_option maxRecDepth 4000 in
theorem sha1_sched1_c3 :
    List.foldl (fun acc _ => extendStep acc) [1682401388, 1229475432, 1649951347, 1515405941, 1647457642, 1515273533, 842348613, 1095123253, 759511345, 875377719, 1145122105, 893600045, 1127563586, 809780024, 893530417, 2147483648, 909942828, 619188790, 2287383617, 117128338, 1874115766, 1175131875, 1502747054, 901747561]
      [8, 9, 10, 11] = [1682401388, 1229475432, 1649951347, 1515405941, 1647457642, 1515273533, 842348613, 1095123253, 759511345, 875377719, 1145122105, 893600045, 1127563586, 809780024, 893530417, 2147483648, 909942828, 619188790, 2287383617, 117128338, 1874115766, 1175131875, 1502747054, 901747561, 845628814, 4163435780, 1966773927, 1664546322] := by
  decide

set_option maxRecDepth 4000 in
theorem sha1_sched1_c4 :
    List.foldl (fun acc _ => extendStep acc) [1682401388, 1229475432, 1649951347, 1515405941, 1647457642, 1515273533, 842348613, 1095123253, 759511345, 875377719, 1145122105, 893600045, 1127563586, 809780024, 893530417, 2147483648, 909942828, 619188790, 2287383617, 117128338, 1874115766, 1175131875, 1502747054, 901747561, 845628814, 4163435780, 1966773927, 1664546322]
      [12, 13, 14, 15] = [1682401388, 1229475432, 1649951347, 1515405941, 1647457642, 1515273533, 842348613, 1095123253, 759511345, 875377719, 1145122105, 893600045, 1127563586, 809780024, 893530417, 2147483648, 909942828, 619188790, 2287383617, 117128338, 1874115766, 1175131875, 1502747054, 901747561, 845628814, 4163435780, 1966773927, 1664546322, 3285607299, 116098809, 1941241154, 2768487864] := by
  decide

set_option maxRecDepth 4000 in
theorem sha1_sched1_c5 :
    List.foldl (fun acc _ => extendStep acc) [1682401388, 1229475432, 1649951347, 1515405941, 1647457642, 1515273533, 842348613, 1095123253, 759511345, 875377719, 1145122105, 893600045, 1127563586, 809780024, 893530417, 2147483648, 909942828, 619188790, 2287383617, 117128338, 1874115766, 1175131875, 1502747054, 901747561, 845628814, 4163435780, 1966773927, 1664546322, 3285607299, 116098809, 1941241154, 2768487864]
      [16, 17, 18, 19] = [1682401388, 1229475432, 1649951347, 1515405941, 1647457642, 1515273533, 842348613, 1095123253, 759511345, 875377719, 1145122105, 893600045, 1127563586, 809780024, 893530417, 2147483648, 909942828, 619188790, 2287383617, 117128338, 1874115766, 1175131875, 1502747054, 901747561, 845628814, 4163435780, 1966773927, 1664546322, 3285607299, 116098809, 1941241154, 2768487864, 365801013, 1394499013, 1874245584, 1813439660] := by
  decide

set_option maxRecDepth 4000 in
theorem sha1_sched1_c6 :
    List.foldl (fun acc _ => extendStep acc) [1682401388, 1229475432, 1649951347, 1515405941, 1647457642, 1515273533, 842348613, 1095123253, 759511345, 875377719, 1145122105, 893600045, 1127563586, 809780024, 893530417, 2147483648, 909942828, 619188790, 2287383617, 117128338, 1874115766, 1175131875, 1502747054, 901747561, 845628814, 4163435780, 1966773927, 1664546322, 3285607299, 116098809, 1941241154, 2768487864, 365801013, 1394499013, 1874245584, 1813439660]
      [20, 21, 22, 23] = [1682401388, 1229475432, 1649951347, 1515405941, 1647457642, 1515273533, 842348613, 1095123253, 759511345, 875377719, 1145122105, 893600045, 1127563586, 809780024, 893530417, 2147483648, 909942828, 619188790, 2287383617, 117128338, 1874115766, 1175131875, 1502747054, 901747561, 845628814, 4163435780, 1966773927, 1664546322, 3285607299, 116098809, 1941241154, 2768487864, 365801013, 1394499013, 1874245584, 1813439660, 1306343101, 903047494, 3903753116, 1251162832] := by
  decide

set_option maxRecDepth 4000 in
theorem sha1_sched1_c7 :
    List.foldl (fun acc _ => extendStep acc) [1682401388, 1229475432, 1649951347, 1515405941, 1647457642, 1515273533, 842348613, 1095123253, 759511345, 875377719, 1145122105, 893600045, 1127563586, 809780024, 893530417, 2147483648, 909942828, 619188790, 2287383617, 117128338, 1874115766, 1175131875, 1502747054, 901747561, 845628814, 4163435780, 1966773927, 1664546322, 3285607299, 116098809, 1941241154, 2768487864, 365801013, 1394499013, 1874245584, 1813439660, 1306343101, 903047494, 3903753116, 1251162832]
      [24, 25, 26, 27] = [1682401388, 1229475432, 1649951347, 1515405941, 1647457642, 1515273533, 842348613, 1095123253, 759511345, 875377719, 1145122105, 893600045, 1127563586, 809780024, 893530417, 2147483648, 909942828, 619188790, 2287383617, 117128338, 1874115766, 1175131875, 1502747054, 901747561, 845628814, 4163435780, 1966773927, 1664546322, 3285607299, 116098809, 1941241154, 2768487864, 365801013, 1394499013, 1874245584, 1813439660, 1306343101, 903047494, 3903753116, 1251162832, 3464898740, 1096661662, 663941193, 2392553959] := by
  decide

set_option maxRecDepth 4000 in
theorem sha1_sched1_c8 :
    List.foldl (fun acc _ => extendStep acc) [1682401388, 1229475432, 1649951347, 1515405941, 1647457642, 1515273533, 842348613, 1095123253, 759511345, 875377719, 1145122105, 893600045, 1127563586, 809780024, 893530417, 2147483648, 909942828, 619188790, 2287383617, 117128338, 1874115766, 1175131875, 1502747054, 901747561, 845628814, 4163435780, 1966773927, 1664546322, 3285607299, 116098809, 1941241154, 2768487864, 365801013, 1394499013, 1874245584, 1813439660, 1306343101, 903047494, 3903753116, 1251162832, 3464898740, 1096661662, 663941193, 2392553959]
      [28, 29, 30, 31] = [1682401388, 1229475432, 1649951347, 1515405941, 1647457642, 1515273533, 842348613, 1095123253, 759511345, 875377719, 1145122105, 893600045, 1127563586, 809780024, 893530417, 2147483648, 909942828, 619188790, 2287383617, 117128338, 1874115766, 1175131875, 1502747054, 901747561, 845628814, 4163435780, 1966773927, 1664546322, 3285607299, 116098809, 1941241154, 2768487864, 365801013, 1394499013, 1874245584, 1813439660, 1306343101, 903047494, 3903753116, 1251162832, 3464898740, 1096661662, 663941193, 2392553959, 2042897861, 1666430109, 10043928, 2325024465] := by
  decide

set_option maxRecDepth 4000 in
theorem sha1_sched1_c9 :
    List.foldl (fun acc _ => extendStep acc) [1682401388, 1229475432, 1649951347, 1515405941, 1647457642, 1515273533, 842348613, 1095123253, 759511345, 875377719, 1145122105, 893600045, 1127563586, 809780024, 893530417, 2147483648, 909942828, 619188790, 2287383617, 117128338, 1874115766, 1175131875, 1502747054, 901747561, 845628814, 4163435780, 1966773927, 1664546322, 3285607299, 116098809, 1941241154, 2768487864, 365801013, 1394499013, 1874245584, 1813439660, 1306343101, 903047494, 3903753116, 1251162832, 3464898740, 1096661662, 663941193, 2392553959, 2042897861, 1666430109, 10043928, 2325024465]
      [32, 33, 34, 35] = [1682401388, 1229475432, 1649951347, 1515405941, 1647457642, 1515273533, 842348613, 1095123253, 759511345, 875377719, 1145122105, 893600045, 1127563586, 809780024, 893530417, 2147483648, 909942828, 619188790, 2287383617, 117128338, 1874115766, 1175131875, 1502747054, 901747561, 845628814, 4163435780, 1966773927, 1664546322, 3285607299, 116098809, 1941241154, 2768487864, 365801013, 1394499013, 1874245584, 1813439660, 1306343101, 903047494, 3903753116, 1251162832, 3464898740, 1096661662, 663941193, 2392553959, 2042897861, 1666430109, 10043928, 2325024465, 2942110617, 4254630878, 517537771, 4027055912] := by
  decide

set_option maxRecDepth 4000 in
theorem sha1_sched1_c10 :
    List.foldl (fun acc _ => extendStep acc) [1682401388, 1229475432, 1649951347, 1515405941, 1647457642, 1515273533, 842348613, 1095123253, 759511345, 875377719, 1145122105, 893600045, 1127563586, 809780024, 893530417, 2147483648, 909942828, 619188790, 2287383617, 117128338, 1874115766, 1175131875, 1502747054, 901747561, 845628814, 4163435780, 1966773927, 1664546322, 3285607299, 116098809, 1941241154, 2768487864, 365801013, 1394499013, 1874245584, 1813439660, 1306343101, 903047494, 3903753116, 1251162832, 3464898740, 1096661662, 663941193, 2392553959, 2042897861, 1666430109, 10043928, 2325024465, 2942110617, 4254630878, 517537771, 4027055912]
      [36, 37, 38, 39] = [1682401388, 1229475432, 1649951347, 1515405941, 1647457642, 1515273533, 842348613, 1095123253, 759511345, 875377719, 1145122105, 893600045, 1127563586, 809780024, 893530417, 2147483648, 909942828, 619188790, 2287383617, 117128338, 1874115766, 1175131875, 1502747054, 901747561, 845628814, 4163435780, 1966773927, 1664546322, 3285607299, 116098809, 1941241154, 2768487864, 365801013, 1394499013, 1874245584, 1813439660, 1306343101, 903047494, 3903753116, 1251162832, 3464898740, 1096661662, 663941193, 2392553959, 2042897861, 1666430109, 10043928, 2325024465, 2942110617, 4254630878, 517537771, 4027055912, 1113470580, 93729216, 2909551665, 2248896983] := by
  decide

set_option maxRecDepth 4000 in
theorem sha1_sched1_c11 :
    List.foldl (fun acc _ => extendStep acc) [1682401388, 1229475432, 1649951347, 1515405941, 1647457642, 1515273533, 842348613, 1095123253, 759511345, 875377719, 1145122105, 893600045, 1127563586, 809780024, 893530417, 2147483648, 909942828, 619188790, 2287383617, 117128338, 1874115766, 1175131875, 1502747054, 901747561, 845628814, 4163435780, 1966773927, 1664546322, 3285607299, 116098809, 1941241154, 2768487864, 365801013, 1394499013, 1874245584, 1813439660, 1306343101, 903047494, 3903753116, 1251162832, 3464898740, 1096661662, 663941193, 2392553959, 2042897861, 1666430109, 10043928, 2325024465, 2942110617, 4254630878, 517537771, 4027055912, 1113470580, 93729216, 2909551665, 2248896983]
      [40, 41, 42, 43] = [1682401388, 1229475432, 1649951347, 1515405941, 1647457642, 1515273533, 842348613, 1095123253, 759511345, 875377719, 1145122105, 893600045, 1127563586, 809780024, 893530417, 2147483648, 909942828, 619188790, 2287383617, 117128338, 1874115766, 1175131875, 1502747054, 901747561, 845628814, 4163435780, 1966773927, 1664546322, 3285607299, 116098809, 1941241154, 2768487864, 365801013, 1394499013, 1874245584, 1813439660, 1306343101, 903047494, 3903753116, 1251162832, 3464898740, 1096661662, 663941193, 2392553959, 2042897861, 1666430109, 10043928, 2325024465, 2942110617, 4254630878, 517537771, 4027055912, 1113470580, 93729216, 2909551665, 2248896983, 2277492040, 1046804781, 2366289761, 887221813] := by
  decide

set_option maxRecDepth 4000 in
theorem sha1_sched1_c12 :
    List.foldl (fun acc _ => extendStep acc) [1682401388, 1229475432, 1649951347, 1515405941, 1647457642, 1515273533, 842348613, 1095123253, 759511345, 875377719, 1145122105, 893600045, 1127563586, 809780024, 893530417, 2147483648, 909942828, 619188790, 2287383617, 117128338, 1874115766, 1175131875, 1502747054, 901747561, 845628814, 4163435780, 1966773927, 1664546322, 3285607299, 116098809, 1941241154, 2768487864, 365801013, 1394499013, 1874245584, 1813439660, 1306343101, 903047494, 3903753116, 1251162832, 3464898740, 1096661662, 663941193, 2392553959, 2042897861, 1666430109, 10043928, 2325024465, 2942110617, 4254630878, 517537771, 4027055912, 1113470580, 93729216, 2909551665, 2248896983, 2277492040, 1046804781, 2366289761, 887221813]
      [44, 45, 46, 47] = [1682401388, 1229475432, 1649951347, 1515405941, 1647457642, 1515273533, 842348613, 1095123253, 759511345, 875377719, 1145122105, 893600045, 1127563586, 809780024, 893530417, 2147483648, 909942828, 619188790, 2287383617, 117128338, 1874115766, 1175131875, 1502747054, 901747561, 845628814, 4163435780, 1966773927, 1664546322, 3285607299, 116098809, 1941241154, 2768487864, 365801013, 1394499013, 1874245584, 1813439660, 1306343101, 903047494, 3903753116, 1251162832, 3464898740, 1096661662, 663941193, 2392553959, 2042897861, 1666430109, 10043928, 2325024465, 2942110617, 4254630878, 517537771, 4027055912, 1113470580, 93729216, 2909551665, 2248896983, 2277492040, 1046804781, 2366289761, 887221813, 181358856, 3266607578, 1821587210, 4153629601] := by
  decide

set_option maxRecDepth 4000 in
theorem sha1_sched1_c13 :
    List.foldl (fun acc _ => extendStep acc) [1682401388, 1229475432, 1649951347, 1515405941, 1647457642, 1515273533, 842348613, 1095123253, 759511345, 875377719, 1145122105, 893600045, 1127563586, 809780024, 893530417, 2147483648, 909942828, 619188790, 2287383617, 117128338, 1874115766, 1175131875, 1502747054, 901747561, 845628814, 4163435780, 1966773927, 1664546322, 3285607299, 116098809, 1941241154, 2768487864, 365801013, 1394499013, 1874245584, 1813439660, 1306343101, 903047494, 3903753116, 1251162832, 3464898740, 1096661662, 663941193, 2392553959, 2042897861, 1666430109, 10043928, 2325024465, 2942110617, 4254630878, 517537771, 4027055912, 1113470580, 93729216, 2909551665, 2248896983, 2277492040, 1046804781, 2366289761, 887221813, 181358856, 3266607578, 1821587210, 4153629601]
      [48, 49, 50, 51] = [1682401388, 1229475432, 1649951347, 1515405941, 1647457642, 1515273533, 842348613, 1095123253, 759511345, 875377719, 1145122105, 893600045, 1127563586, 809780024, 893530417, 2147483648, 909942828, 619188790, 2287383617, 117128338, 1874115766, 1175131875, 1502747054, 901747561, 845628814, 4163435780, 1966773927, 1664546322, 3285607299, 116098809, 1941241154, 2768487864, 365801013, 1394499013, 1874245584, 1813439660, 1306343101, 903047494, 3903753116, 1251162832, 3464898740, 1096661662, 663941193, 2392553959, 2042897861, 1666430109, 10043928, 2325024465, 2942110617, 4254630878, 517537771, 4027055912, 1113470580, 93729216, 2909551665, 2248896983, 2277492040, 1046804781, 2366289761, 887221813, 181358856, 3266607578, 1821587210, 4153629601, 3910963649, 3201394082, 1279150782, 1356423736] := by
  decide

set_option maxRecDepth 4000 in
theorem sha1_sched1_c14 :
    List.foldl (fun acc _ => extendStep acc) [1682401388, 1229475432, 1649951347, 1515405941, 1647457642, 1515273533, 842348613, 1095123253, 759511345, 875377719, 1145122105, 893600045, 1127563586, 809780024, 893530417, 2147483648, 909942828, 619188790, 2287383617, 117128338, 1874115766, 1175131875, 1502747054, 901747561, 845628814, 4163435780, 1966773927, 1664546322, 3285607299, 116098809, 1941241154, 2768487864, 365801013, 1394499013, 1874245584, 1813439660, 1306343101, 903047494, 3903753116, 1251162832, 3464898740, 1096661662, 663941193, 2392553959, 2042897861, 1666430109, 10043928, 2325024465, 2942110617, 4254630878, 517537771, 4027055912, 1113470580, 93729216, 2909551665, 2248896983, 2277492040, 1046804781, 2366289761, 887221813, 181358856, 3266607578, 1821587210, 4153629601, 3910963649, 3201394082, 1279150782, 1356423736]
      [52, 53, 54, 55] = [1682401388, 1229475432, 1649951347, 1515405941, 1647457642, 1515273533, 842348613, 1095123253, 759511345, 875377719, 1145122105, 893600045, 1127563586, 809780024, 893530417, 2147483648, 909942828, 619188790, 2287383617, 117128338, 1874115766, 1175131875, 1502747054, 901747561, 845628814, 4163435780, 1966773927, 1664546322, 3285607299, 116098809, 1941241154, 2768487864, 365801013, 1394499013, 1874245584, 1813439660, 1306343101, 903047494, 3903753116, 1251162832, 3464898740, 1096661662, 663941193, 2392553959, 2042897861, 1666430109, 10043928, 2325024465, 2942110617, 4254630878, 517537771, 4027055912, 1113470580, 93729216, 2909551665, 2248896983, 2277492040, 1046804781, 2366289761, 887221813, 181358856, 3266607578, 1821587210, 4153629601, 3910963649, 3201394082, 1279150782, 1356423736, 3059252702, 439281382, 758339734, 4081671435] := by
  decide

set_option maxRecDepth 4000 in
theorem sha1_sched1_c15 :
    List.foldl (fun acc _ => extendStep acc) [1682401388, 1229475432, 1649951347, 1515405941, 1647457642, 1515273533, 842348613, 1095123253, 759511345, 875377719, 1145122105, 893600045, 1127563586, 809780024, 893530417, 2147483648, 909942828, 619188790, 2287383617, 117128338, 1874115766, 1175131875, 1502747054, 901747561, 845628814, 4163435780, 1966773927, 1664546322, 3285607299, 116098809, 1941241154, 2768487864, 365801013, 1394499013, 1874245584, 1813439660, 1306343101, 903047494, 3903753116, 1251162832, 3464898740, 1096661662, 663941193, 2392553959, 2042897861, 1666430109, 10043928, 2325024465, 2942110617, 4254630878, 517537771, 4027055912, 1113470580, 93729216, 2909551665, 2248896983, 2277492040, 1046804781, 2366289761, 887221813, 181358856, 3266607578, 1821587210, 4153629601, 3910963649, 3201394082, 1279150782, 1356423736, 3059252702, 439281382, 758339734, 4081671435]
      [56, 57, 58, 59] = [1682401388, 1229475432, 1649951347, 1515405941, 1647457642, 1515273533, 842348613, 1095123253, 759511345, 875377719, 1145122105, 893600045, 1127563586, 809780024, 893530417, 2147483648, 909942828, 619188790, 2287383617, 117128338, 1874115766, 1175131875, 1502747054, 901747561, 845628814, 4163435780, 1966773927, 1664546322, 3285607299, 116098809, 1941241154, 2768487864, 365801013, 1394499013, 1874245584, 1813439660, 1306343101, 903047494, 3903753116, 1251162832, 3464898740, 1096661662, 663941193, 2392553959, 2042897861, 1666430109, 10043928, 2325024465, 2942110617, 4254630878, 517537771, 4027055912, 1113470580, 93729216, 2909551665, 2248896983, 2277492040, 1046804781, 2366289761, 887221813, 181358856, 3266607578, 1821587210, 4153629601, 3910963649, 3201394082, 1279150782, 1356423736, 3059252702, 439281382, 758339734, 4081671435, 4077783581, 852382809, 1902502840, 2869297044] := by
  decide

set_option maxRecDepth 4000 in
theorem sha1_sched1_c16 :
    List.foldl (fun acc _ => extendStep acc) [1682401388, 1229475432, 1649951347, 1515405941, 1647457642, 1515273533, 842348613, 1095123253, 759511345, 875377719, 1145122105, 893600045, 1127563586, 809780024, 893530417, 2147483648, 909942828, 619188790, 2287383617, 117128338, 1874115766, 1175131875, 1502747054, 901747561, 845628814, 4163435780, 1966773927, 1664546322, 3285607299, 116098809, 1941241154, 2768487864, 365801013, 1394499013, 1874245584, 1813439660, 1306343101, 903047494, 3903753116, 1251162832, 3464898740, 1096661662, 663941193, 2392553959, 2042897861, 1666430109, 10043928, 2325024465, 2942110617, 4254630878, 517537771, 4027055912, 1113470580, 93729216, 2909551665, 2248896983, 2277492040, 1046804781, 2366289761, 887221813, 181358856, 3266607578, 1821587210, 4153629601, 3910963649, 3201394082, 1279150782, 1356423736, 3059252702, 439281382, 758339734, 4081671435, 4077783581, 852382809, 1902502840, 2869297044]
      [60, 61, 62, 63] = [1682401388, 1229475432, 1649951347, 1515405941, 1647457642, 1515273533, 842348613, 1095123253, 759511345, 875377719, 1145122105, 893600045, 1127563586, 809780024, 893530417, 2147483648, 909942828, 619188790, 2287383617, 117128338, 1874115766, 1175131875, 1502747054, 901747561, 845628814, 4163435780, 1966773927, 1664546322, 3285607299, 116098809, 1941241154, 2768487864, 365801013, 1394499013, 1874245584, 1813439660, 1306343101, 903047494, 3903753116, 1251162832, 3464898740, 1096661662, 663941193, 2392553959, 2042897861, 1666430109, 10043928, 2325024465, 2942110617, 4254630878, 517537771, 4027055912, 1113470580, 93729216, 2909551665, 2248896983, 2277492040, 1046804781, 2366289761, 887221813, 181358856, 3266607578, 1821587210, 4153629601, 3910963649, 3201394082, 1279150782, 1356423736, 3059252702, 439281382, 758339734, 4081671435, 4077783581, 852382809, 1902502840, 2869297044, 3314851595, 3168292426, 124912530, 4282382342] := by
  decide

set_option maxRecDepth 4000 in
theorem sha1_sched1_all : extendWords [1682401388, 1229475432, 1649951347, 1515405941, 1647457642, 1515273533, 842348613, 1095123253, 759511345, 875377719, 1145122105, 893600045, 1127563586, 809780024, 893530417, 2147483648] = [1682401388, 1229475432, 1649951347, 1515405941, 1647457642, 1515273533, 842348613, 1095123253, 759511345, 875377719, 1145122105, 893600045, 1127563586, 809780024, 893530417, 2147483648, 909942828, 619188790, 2287383617, 117128338, 1874115766, 1175131875, 1502747054, 901747561, 845628814, 4163435780, 1966773927, 1664546322, 3285607299, 116098809, 1941241154, 2768487864, 365801013, 1394499013, 1874245584, 1813439660, 1306343101, 903047494, 3903753116, 1251162832, 3464898740, 1096661662, 663941193, 2392553959, 2042897861, 1666430109, 10043928, 2325024465, 2942110617, 4254630878, 517537771, 4027055912, 1113470580, 93729216, 2909551665, 2248896983, 2277492040, 1046804781, 2366289761, 887221813, 181358856, 3266607578, 1821587210, 4153629601, 3910963649, 3201394082, 1279150782, 1356423736, 3059252702, 439281382, 758339734, 4081671435, 4077783581, 852382809, 1902502840, 2869297044, 3314851595, 3168292426, 124912530, 4282382342] := by
  simp only [extendWords]
  rw [show List.range 64 = [0, 1, 2, 3] ++ ([4, 5, 6, 7] ++ ([8, 9, 10, 11] ++ ([12, 13, 14, 15] ++ ([16, 17, 18, 19] ++ ([20, 21, 22, 23] ++ ([24, 25, 26, 27] ++ ([28, 29, 30, 31] ++ ([32, 33, 34, 35] ++ ([36, 37, 38, 39] ++ ([40, 41, 42, 43] ++ ([44, 45, 46, 47] ++ ([48, 49, 50, 51] ++ ([52, 53, 54, 55] ++ ([56, 57, 58, 59] ++ ([60, 61, 62, 63]))))))))))))))) from rfl]
  rw [List.foldl_append, sha1_sched1_c1, List.foldl_append, sha1_sched1_c2, List.foldl_append, sha1_sched1_c3, List.foldl_append, sha1_sched1_c4, List.foldl_append, sha1_sched1_c5, List.foldl_append, sha1_sched1_c6, List.foldl_append, sha1_sched1_c7, List.foldl_append, sha1_sched1_c8, List.foldl_append, sha1_sched1_c9, List.foldl_append, sha1_sched1_c10, List.foldl_append, sha1_sched1_c11, List.foldl_append, sha1_sched1_c12, List.foldl_append, sha1_sched1_c13, List.foldl_append, sha1_sched1_c14, List.foldl_append, sha1_sched1_c15, sha1_sched1_c16]

set_option maxRecDepth 4000 in
theorem sha1_enum1 : List.enum [1682401388, 1229475432, 1649951347, 1515405941, 1647457642, 1515273533, 842348613, 1095123253, 759511345, 875377719, 1145122105, 893600045, 1127563586, 809780024, 893530417, 2147483648, 909942828, 619188790, 2287383617, 117128338, 1874115766, 1175131875, 1502747054, 901747561, 845628814, 4163435780, 1966773927, 1664546322, 3285607299, 116098809, 1941241154, 2768487864, 365801013, 1394499013, 1874245584, 1813439660, 1306343101, 903047494, 3903753116, 1251162832, 3464898740, 1096661662, 663941193, 2392553959, 2042897861, 1666430109, 10043928, 2325024465, 2942110617, 4254630878, 517537771, 4027055912, 1113470580, 93729216, 2909551665, 2248896983, 2277492040, 1046804781, 2366289761, 887221813, 181358856, 3266607578, 1821587210, 4153629601, 3910963649, 3201394082, 1279150782, 1356423736, 3059252702, 439281382, 758339734, 4081671435, 4077783581, 852382809, 1902502840, 2869297044, 3314851595, 3168292426, 124912530, 4282382342] =
    [(0, 1682401388), (1, 1229475432), (2, 1649951347), (3, 1515405941), (4, 1647457642), (5, 1515273533), (6, 842348613), (7, 1095123253), (8, 759511345), (9, 875377719), (10, 1145122105), (11, 893600045), (12, 1127563586), (13, 809780024), (14, 893530417), (15, 2147483648), (16, 909942828), (17, 619188790), (18, 2287383617), (19, 117128338), (20, 1874115766), (21, 1175131875), (22, 1502747054), (23, 901747561), (24, 845628814), (25, 4163435780), (26, 1966773927), (27, 1664546322), (28, 3285607299), (29, 116098809), (30, 1941241154), (31, 2768487864), (32, 365801013), (33, 1394499013), (34, 1874245584), (35, 1813439660), (36, 1306343101), (37, 903047494), (38, 3903753116), (39, 1251162832), (40, 3464898740), (41, 1096661662), (42, 663941193), (43, 2392553959), (44, 2042897861), (45, 1666430109), (46, 10043928), (47, 2325024465), (48, 2942110617), (49, 4254630878), (50, 517537771), (51, 4027055912), (52, 1113470580), (53, 93729216), (54, 2909551665), (55, 2248896983), (56, 2277492040), (57, 1046804781), (58, 2366289761), (59, 887221813), (60, 181358856), (61, 3266607578), (62, 1821587210), (63, 4153629601), (64, 3910963649), (65, 3201394082), (66, 1279150782), (67, 1356423736), (68, 3059252702), (69, 439281382), (70, 758339734), (71, 4081671435), (72, 4077783581), (73, 852382809), (74, 1902502840), (75, 2869297044), (76, 3314851595), (77, 3168292426), (78, 124912530), (79, 4282382342)] := by
  decide

set_option maxRecDepth 4000 in
theorem sha1_rounds1_c1 :
    List.foldl sha1Round ⟨1732584193, 4023233417, 2562383102, 271733878, 3285377520⟩
      [(0, 1682401388), (1, 1229475432), (2, 1649951347), (3, 1515405941), (4, 1647457642), (5, 1515273533), (6, 842348613), (7, 1095123253)] = ⟨772597249, 1934966404, 1556622938, 3076726532, 351800939⟩ := by
  decide

set_option maxRecDepth 4000 in
theorem sha1_rounds1_c2 :
    List.foldl sha1Round ⟨772597249, 1934966404, 1556622938, 3076726532, 351800939⟩
      [(8, 759511345), (9, 875377719), (10, 1145122105), (11, 893600045), (12, 1127563586), (13, 809780024), (14, 893530417), (15, 2147483648)] = ⟨2684666984, 3911371933, 2877719131, 3631180975, 2368974433⟩ := by
  decide

set_option maxRecDepth 4000 in
theorem sha1_rounds1_c3 :
    List.foldl sha1Round ⟨2684666984, 3911371933, 2877719131, 3631180975, 2368974433⟩
      [(16, 909942828), (17, 619188790), (18, 2287383617), (19, 117128338), (20, 1874115766), (21, 1175131875), (22, 1502747054), (23, 901747561)] = ⟨621684463, 3199194452, 3024863957, 3563133992, 38186591⟩ := by
  decide

set_option maxRecDepth 4000 in
theorem sha1_rounds1_c4 :
    List.foldl sha1Round ⟨621684463, 3199194452, 3024863957, 3563133992, 38186591⟩
      [(24, 845628814), (25, 4163435780), (26, 1966773927), (27, 1664546322), (28, 3285607299), (29, 116098809), (30, 1941241154), (31, 2768487864)] = ⟨2791836191, 3084565643, 1107745017, 3333342989, 2512904032⟩ := by
  decide

set_option maxRecDepth 4000 in
theorem sha1_rounds1_c5 :
    List.foldl sha1Round ⟨2791836191, 3084565643, 1107745017, 3333342989, 2512904032⟩
      [(32, 365801013), (33, 1394499013), (34, 1874245584), (35, 1813439660), (36, 1306343101), (37, 903047494), (38, 3903753116), (39, 1251162832)] = ⟨732088382, 3498479745, 438141449, 3543353481, 662299890⟩ := by
  decide

set_option maxRecDepth 4000 in
theorem sha1_rounds1_c6 :
    List.foldl sha1Round ⟨732088382, 3498479745, 438141449, 3543353481, 662299890⟩
      [(40, 3464898740), (41, 1096661662), (42, 663941193), (43, 2392553959), (44, 2042897861), (45, 1666430109), (46, 10043928), (47, 2325024465)] = ⟨2883679370, 3739531176, 1556073683, 2547502356, 3681659125⟩ := by
  decide

set_option maxRecDepth 4000 in
theorem sha1_rounds1_c7 :
    List.foldl sha1Round ⟨2883679370, 3739531176, 1556073683, 2547502356, 3681659125⟩
      [(48, 2942110617), (49, 4254630878), (50, 517537771), (51, 4027055912), (52, 1113470580), (53, 93729216), (54, 2909551665), (55, 2248896983)] = ⟨2115126002, 1355354188, 320348849, 1236378853, 1144651164⟩ := by
  decide

set_option maxRecDepth 4000 in
theorem sha1_rounds1_c8 :
    List.foldl sha1Round ⟨2115126002, 1355354188, 320348849, 1236378853, 1144651164⟩
      [(56, 2277492040), (57, 1046804781), (58, 2366289761), (59, 887221813), (60, 181358856), (61, 3266607578), (62, 1821587210), (63, 4153629601)] = ⟨1751003126, 2214614227, 3829138275, 860913710, 2451355158⟩ := by
  decide

set_option maxRecDepth 4000 in
theorem sha1_rounds1_c9 :
    List.foldl sha1Round ⟨1751003126, 2214614227, 3829138275, 860913710, 2451355158⟩
      [(64, 3910963649), (65, 3201394082), (66, 1279150782), (67, 1356423736), (68, 3059252702), (69, 439281382), (70, 758339734), (71, 4081671435)] = ⟨2120605764, 2161481587, 2177763039, 2778431782, 870422075⟩ := by
  decide

set_option maxRecDepth 4000 in
theorem sha1_rounds1_c10 :
    List.foldl sha1Round ⟨2120605764, 2161481587, 2177763039, 2778431782, 870422075⟩
      [(72, 4077783581), (73, 852382809), (74, 1902502840), (75, 2869297044), (76, 3314851595), (77, 3168292426), (78, 124912530), (79, 4282382342)] = ⟨4102706214, 2203686369, 633413371, 1246086146, 2591277810⟩ := by
  decide

set_option maxRecDepth 4000 in
theorem sha1_fold1 : List.foldl sha1Round ⟨1732584193, 4023233417, 2562383102, 271733878, 3285377520⟩
    [(0, 1682401388), (1, 1229475432), (2, 1649951347), (3, 1515405941), (4, 1647457642), (5, 1515273533), (6, 842348613), (7, 1095123253), (8, 759511345), (9, 875377719), (10, 1145122105), (11, 893600045), (12, 1127563586), (13, 809780024), (14, 893530417), (15, 2147483648), (16, 909942828), (17, 619188790), (18, 2287383617), (19, 117128338), (20, 1874115766), (21, 1175131875), (22, 1502747054), (23, 901747561), (24, 845628814), (25, 4163435780), (26, 1966773927), (27, 1664546322), (28, 3285607299), (29, 116098809), (30, 1941241154), (31, 2768487864), (32, 365801013), (33, 1394499013), (34, 1874245584), (35, 1813439660), (36, 1306343101), (37, 903047494), (38, 3903753116), (39, 1251162832), (40, 3464898740), (41, 1096661662), (42, 663941193), (43, 2392553959), (44, 2042897861), (45, 1666430109), (46, 10043928), (47, 2325024465), (48, 2942110617), (49, 4254630878), (50, 517537771), (51, 4027055912), (52, 1113470580), (53, 93729216), (54, 2909551665), (55, 2248896983), (56, 2277492040), (57, 1046804781), (58, 2366289761), (59, 887221813), (60, 181358856), (61, 3266607578), (62, 1821587210), (63, 4153629601), (64, 3910963649), (65, 3201394082), (66, 1279150782), (67, 1356423736), (68, 3059252702), (69, 439281382), (70, 758339734), (71, 4081671435), (72, 4077783581), (73, 852382809), (74, 1902502840), (75, 2869297044), (76, 3314851595), (77, 3168292426), (78, 124912530), (79, 4282382342)] = ⟨4102706214, 2203686369, 633413371, 1246086146, 2591277810⟩ := by
  rw [show ([(0, 1682401388), (1, 1229475432), (2, 1649951347), (3, 1515405941), (4, 1647457642), (5, 1515273533), (6, 842348613), (7, 1095123253), (8, 759511345), (9, 875377719), (10, 1145122105), (11, 893600045), (12, 1127563586), (13, 809780024), (14, 893530417), (15, 2147483648), (16, 909942828), (17, 619188790), (18, 2287383617), (19, 117128338), (20, 1874115766), (21, 1175131875), (22, 1502747054), (23, 901747561), (24, 845628814), (25, 4163435780), (26, 1966773927), (27, 1664546322), (28, 3285607299), (29, 116098809), (30, 1941241154), (31, 2768487864), (32, 365801013), (33, 1394499013), (34, 1874245584), (35, 1813439660), (36, 1306343101), (37, 903047494), (38, 3903753116), (39, 1251162832), (40, 3464898740), (41, 1096661662), (42, 663941193), (43, 2392553959), (44, 2042897861), (45, 1666430109), (46, 10043928), (47, 2325024465), (48, 2942110617), (49, 4254630878), (50, 517537771), (51, 4027055912), (52, 1113470580), (53, 93729216), (54, 2909551665), (55, 2248896983), (56, 2277492040), (57, 1046804781), (58, 2366289761), (59, 887221813), (60, 181358856), (61, 3266607578), (62, 1821587210), (63, 4153629601), (64, 3910963649), (65, 3201394082), (66, 1279150782), (67, 1356423736), (68, 3059252702), (69, 439281382), (70, 758339734), (71, 4081671435), (72, 4077783581), (73, 852382809), (74, 1902502840), (75, 2869297044), (76, 3314851595), (77, 3168292426), (78, 124912530), (79, 4282382342)] : List (Nat × Nat)) = [(0, 1682401388), (1, 1229475432), (2, 1649951347), (3, 1515405941), (4, 1647457642), (5, 1515273533), (6, 842348613), (7, 1095123253)] ++ ([(8, 759511345), (9, 875377719), (10, 1145122105), (11, 893600045), (12, 1127563586), (13, 809780024), (14, 893530417), (15, 2147483648)] ++ ([(16, 909942828), (17, 619188790), (18, 2287383617), (19, 117128338), (20, 1874115766), (21, 1175131875), (22, 1502747054), (23, 901747561)] ++ ([(24, 845628814), (25, 4163435780), (26, 1966773927), (27, 1664546322), (28, 3285607299), (29, 116098809), (30, 1941241154), (31, 2768487864)] ++ ([(32, 365801013), (33, 1394499013), (34, 1874245584), (35, 1813439660), (36, 1306343101), (37, 903047494), (38, 3903753116), (39, 1251162832)] ++ ([(40, 3464898740), (41, 1096661662), (42, 663941193), (43, 2392553959), (44, 2042897861), (45, 1666430109), (46, 10043928), (47, 2325024465)] ++ ([(48, 2942110617), (49, 4254630878), (50, 517537771), (51, 4027055912), (52, 1113470580), (53, 93729216), (54, 2909551665), (55, 2248896983)] ++ ([(56, 2277492040), (57, 1046804781), (58, 2366289761), (59, 887221813), (60, 181358856), (61, 3266607578), (62, 1821587210), (63, 4153629601)] ++ ([(64, 3910963649), (65, 3201394082), (66, 1279150782), (67, 1356423736), (68, 3059252702), (69, 439281382), (70, 758339734), (71, 4081671435)] ++ ([(72, 4077783581), (73, 852382809), (74, 1902502840), (75, 2869297044), (76, 3314851595), (77, 3168292426), (78, 124912530), (79, 4282382342)]))))))))) from rfl]
  rw [List.foldl_append, sha1_rounds1_c1, List.foldl_append, sha1_rounds1_c2, List.foldl_append, sha1_rounds1_c3, List.foldl_append, sha1_rounds1_c4, List.foldl_append, sha1_rounds1_c5, List.foldl_append, sha1_rounds1_c6, List.foldl_append, sha1_rounds1_c7, List.foldl_append, sha1_rounds1_c8, List.foldl_append, sha1_rounds1_c9, sha1_rounds1_c10]

set_option maxRecDepth 4000 in
theorem sha1_state_b1 :
    (extendWords (toWords testBlock1)).enum.foldl sha1Round ⟨1732584193, 4023233417, 2562383102, 271733878, 3285377520⟩ = ⟨4102706214, 2203686369, 633413371, 1246086146, 2591277810⟩ := by
  rw [sha1_words1_start, sha1_sched1_all, sha1_enum1]
  exact sha1_fold1

set_option maxRecDepth 4000 in
theorem sha1Block_b1 : sha1Block ⟨1732584193, 4023233417, 2562383102, 271733878, 3285377520⟩ testBlock1 = ⟨1540323111, 1931952490, 3195796473, 1517820024, 1581688034⟩ := by
  rw [sha1Block_eq _ _ _ sha1_state_b1]
  decide

set_option maxRecDepth 4000 in
theorem sha1_words2_start : toWords testBlock2 = [0, 0, 0, 0, 0, 0, 0, 0, 0, 0, 0, 0, 0, 0, 0, 480] := by
  decide

set_option maxRecDepth 4000 in
theorem sha1_sched2_c1 :
    List.foldl (fun acc _ => extendStep acc) [0, 0, 0, 0, 0, 0, 0, 0, 0, 0, 0, 0, 0, 0, 0, 480]
      [0, 1, 2, 3] = [0, 0, 0, 0, 0, 0, 0, 0, 0, 0, 0, 0, 0, 0, 0, 480, 0, 0, 960, 0] := by
  decide

set_option maxRecDepth 4000 in
theorem sha1_sched2_c2 :
    List.foldl (fun acc _ => extendStep acc) [0, 0, 0, 0, 0, 0, 0, 0, 0, 0, 0, 0, 0, 0, 0, 480, 0, 0, 960, 0]
      [4, 5, 6, 7] = [0, 0, 0, 0, 0, 0, 0, 0, 0, 0, 0, 0, 0, 0, 0, 480, 0, 0, 960, 0, 0, 1920, 0, 960] := by
  decide

set_option maxRecDepth 4000 in
theorem sha1_sched2_c3 :
    List.foldl (fun acc _ => extendStep acc) [0, 0, 0, 0, 0, 0, 0, 0, 0, 0, 0, 0, 0, 0, 0, 480, 0, 0, 960, 0, 0, 1920, 0, 960]
      [8, 9, 10, 11] = [0, 0, 0, 0, 0, 0, 0, 0, 0, 0, 0, 0, 0, 0, 0, 480, 0, 0, 960, 0, 0, 1920, 0, 960, 3840, 0, 0, 7680] := by
  decide

set_option maxRecDepth 4000 in
theorem sha1_sched2_c4 :
    List.foldl (fun acc _ => extendStep acc) [0, 0, 0, 0, 0, 0, 0, 0, 0, 0, 0, 0, 0, 0, 0, 480, 0, 0, 960, 0, 0, 1920, 0, 960, 3840, 0, 0, 7680]
      [12, 13, 14, 15] = [0, 0, 0, 0, 0, 0, 0, 0, 0, 0, 0, 0, 0, 0, 0, 480, 0, 0, 960, 0, 0, 1920, 0, 960, 3840, 0, 0, 7680, 0, 3264, 15360, 1088] := by
  decide

set_option maxRecDepth 4000 in
theorem sha1_sched2_c5 :
    List.foldl (fun acc _ => extendStep acc) [0, 0, 0, 0, 0, 0, 0, 0, 0, 0, 0, 0, 0, 0, 0, 480, 0, 0, 960, 0, 0, 1920, 0, 960, 3840, 0, 0, 7680, 0, 3264, 15360, 1088]
      [16, 17, 18, 19] = [0, 0, 0, 0, 0, 0, 0, 0, 0, 0, 0, 0, 0, 0, 0, 480, 0, 0, 960, 0, 0, 1920, 0, 960, 3840, 0, 0, 7680, 0, 3264, 15360, 1088, 0, 30720, 3840, 13056] := by
  decide

set_option maxRecDepth 4000 in
theorem sha1_sched2_c6 :
    List.foldl (fun acc _ => extendStep acc) [0, 0, 0, 0, 0, 0, 0, 0, 0, 0, 0, 0, 0, 0, 0, 480, 0, 0, 960, 0, 0, 1920, 0, 960, 3840, 0, 0, 7680, 0, 3264, 15360, 1088, 0, 30720, 3840, 13056]
      [20, 21, 22, 23] = [0, 0, 0, 0, 0, 0, 0, 0, 0, 0, 0, 0, 0, 0, 0, 480, 0, 0, 960, 0, 0, 1920, 0, 960, 3840, 0, 0, 7680, 0, 3264, 15360, 1088, 0, 30720, 3840, 13056, 61440, 3840, 0, 126720] := by
  decide

set_option maxRecDepth 4000 in
theorem sha1_sched2_c7 :
    List.foldl (fun acc _ => extendStep acc) [0, 0, 0, 0, 0, 0, 0, 0, 0, 0, 0, 0, 0, 0, 0, 480, 0, 0, 960, 0, 0, 1920, 0, 960, 3840, 0, 0, 7680, 0, 3264, 15360, 1088, 0, 30720, 3840, 13056, 61440, 3840, 0, 126720]
      [24, 25, 26, 27] = [0, 0, 0, 0, 0, 0, 0, 0, 0, 0, 0, 0, 0, 0, 0, 480, 0, 0, 960, 0, 0, 1920, 0, 960, 3840, 0, 0, 7680, 0, 3264, 15360, 1088, 0, 30720, 3840, 13056, 61440, 3840, 0, 126720, 0, 52224, 245760, 17280] := by
  decide

set_option maxRecDepth 4000 in
theorem sha1_sched2_c8 :
    List.foldl (fun acc _ => extendStep acc) [0, 0, 0, 0, 0, 0, 0, 0, 0, 0, 0, 0, 0, 0, 0, 480, 0, 0, 960, 0, 0, 1920, 0, 960, 3840, 0, 0, 7680, 0, 3264, 15360, 1088, 0, 30720, 3840, 13056, 61440, 3840, 0, 126720, 0, 52224, 245760, 17280]
      [28, 29, 30, 31] = [0, 0, 0, 0, 0, 0, 0, 0, 0, 0, 0, 0, 0, 0, 0, 480, 0, 0, 960, 0, 0, 1920, 0, 960, 3840, 0, 0, 7680, 0, 3264, 15360, 1088, 0, 30720, 3840, 13056, 61440, 3840, 0, 126720, 0, 52224, 245760, 17280, 0, 495360, 65280, 206464] := by
  decide

set_option maxRecDepth 4000 in
theorem sha1_sched2_c9 :
    List.foldl (fun acc _ => extendStep acc) [0, 0, 0, 0, 0, 0, 0, 0, 0, 0, 0, 0, 0, 0, 0, 480, 0, 0, 960, 0, 0, 1920, 0, 960, 3840, 0, 0, 7680, 0, 3264, 15360, 1088, 0, 30720, 3840, 13056, 61440, 3840, 0, 126720, 0, 52224, 245760, 17280, 0, 495360, 65280, 206464]
      [32, 33, 34, 35] = [0, 0, 0, 0, 0, 0, 0, 0, 0, 0, 0, 0, 0, 0, 0, 480, 0, 0, 960, 0, 0, 1920, 0, 960, 3840, 0, 0, 7680, 0, 3264, 15360, 1088, 0, 30720, 3840, 13056, 61440, 3840, 0, 126720, 0, 52224, 245760, 17280, 0, 495360, 65280, 206464, 983040, 61440, 13056, 2031360] := by
  decide

set_option maxRecDepth 4000 in
theorem sha1_sched2_c10 :
    List.foldl (fun acc _ => extendStep acc) [0, 0, 0, 0, 0, 0, 0, 0, 0, 0, 0, 0, 0, 0, 0, 480, 0, 0, 960, 0, 0, 1920, 0, 960, 3840, 0, 0, 7680, 0, 3264, 15360, 1088, 0, 30720, 3840, 13056, 61440, 3840, 0, 126720, 0, 52224, 245760, 17280, 0, 495360, 65280, 206464, 983040, 61440, 13056, 2031360]
      [36, 37, 38, 39] = [0, 0, 0, 0, 0, 0, 0, 0, 0, 0, 0, 0, 0, 0, 0, 480, 0, 0, 960, 0, 0, 1920, 0, 960, 3840, 0, 0, 7680, 0, 3264, 15360, 1088, 0, 30720, 3840, 13056, 61440, 3840, 0, 126720, 0, 52224, 245760, 17280, 0, 495360, 65280, 206464, 983040, 61440, 13056, 2031360, 0, 833536, 3932160, 264960] := by
  decide

set_option maxRecDepth 4000 in
theorem sha1_sched2_c11 :
    List.foldl (fun acc _ => extendStep acc) [0, 0, 0, 0, 0, 0, 0, 0, 0, 0, 0, 0, 0, 0, 0, 480, 0, 0, 960, 0, 0, 1920, 0, 960, 3840, 0, 0, 7680, 0, 3264, 15360, 1088, 0, 30720, 3840, 13056, 61440, 3840, 0, 126720, 0, 52224, 245760, 17280, 0, 495360, 65280, 206464, 983040, 61440, 13056, 2031360, 0, 833536, 3932160, 264960]
      [40, 41, 42, 43] = [0, 0, 0, 0, 0, 0, 0, 0, 0, 0, 0, 0, 0, 0, 0, 480, 0, 0, 960, 0, 0, 1920, 0, 960, 3840, 0, 0, 7680, 0, 3264, 15360, 1088, 0, 30720, 3840, 13056, 61440, 3840, 0, 126720, 0, 52224, 245760, 17280, 0, 495360, 65280, 206464, 983040, 61440, 13056, 2031360, 0, 833536, 3932160, 264960, 61440, 7929600, 1044480, 3376896] := by
  decide

set_option maxRecDepth 4000 in
theorem sha1_sched2_c12 :
    List.foldl (fun acc _ => extendStep acc) [0, 0, 0, 0, 0, 0, 0, 0, 0, 0, 0, 0, 0, 0, 0, 480, 0, 0, 960, 0, 0, 1920, 0, 960, 3840, 0, 0, 7680, 0, 3264, 15360, 1088, 0, 30720, 3840, 13056, 61440, 3840, 0, 126720, 0, 52224, 245760, 17280, 0, 495360, 65280, 206464, 983040, 61440, 13056, 2031360, 0, 833536, 3932160, 264960, 61440, 7929600, 1044480, 3376896]
      [44, 45, 46, 47] = [0, 0, 0, 0, 0, 0, 0, 0, 0, 0, 0, 0, 0, 0, 0, 480, 0, 0, 960, 0, 0, 1920, 0, 960, 3840, 0, 0, 7680, 0, 3264, 15360, 1088, 0, 30720, 3840, 13056, 61440, 3840, 0, 126720, 0, 52224, 245760, 17280, 0, 495360, 65280, 206464, 983040, 61440, 13056, 2031360, 0, 833536, 3932160, 264960, 61440, 7929600, 1044480, 3376896, 15728640, 1032960, 61440, 32488192] := by
  decide

set_option maxRecDepth 4000 in
theorem sha1_sched2_c13 :
    List.foldl (fun acc _ => extendStep acc) [0, 0, 0, 0, 0, 0, 0, 0, 0, 0, 0, 0, 0, 0, 0, 480, 0, 0, 960, 0, 0, 1920, 0, 960, 3840, 0, 0, 7680, 0, 3264, 15360, 1088, 0, 30720, 3840, 13056, 61440, 3840, 0, 126720, 0, 52224, 245760, 17280, 0, 495360, 65280, 206464, 983040, 61440, 13056, 2031360, 0, 833536, 3932160, 264960, 61440, 7929600, 1044480, 3376896, 15728640, 1032960, 61440, 32488192]
      [48, 49, 50, 51] = [0, 0, 0, 0, 0, 0, 0, 0, 0, 0, 0, 0, 0, 0, 0, 480, 0, 0, 960, 0, 0, 1920, 0, 960, 3840, 0, 0, 7680, 0, 3264, 15360, 1088, 0, 30720, 3840, 13056, 61440, 3840, 0, 126720, 0, 52224, 245760, 17280, 0, 495360, 65280, 206464, 983040, 61440, 13056, 2031360, 0, 833536, 3932160, 264960, 61440, 7929600, 1044480, 3376896, 15728640, 1032960, 61440, 32488192, 0, 13369344, 62976000, 4423680] := by
  decide

set_option maxRecDepth 4000 in
theorem sha1_sched2_c14 :
    List.foldl (fun acc _ => extendStep acc) [0, 0, 0, 0, 0, 0, 0, 0, 0, 0, 0, 0, 0, 0, 0, 480, 0, 0, 960, 0, 0, 1920, 0, 960, 3840, 0, 0, 7680, 0, 3264, 15360, 1088, 0, 30720, 3840, 13056, 61440, 3840, 0, 126720, 0, 52224, 245760, 17280, 0, 495360, 65280, 206464, 983040, 61440, 13056, 2031360, 0, 833536, 3932160, 264960, 61440, 7929600, 1044480, 3376896, 15728640, 1032960, 61440, 32488192, 0, 13369344, 62976000, 4423680]
      [52, 53, 54, 55] = [0, 0, 0, 0, 0, 0, 0, 0, 0, 0, 0, 0, 0, 0, 0, 480, 0, 0, 960, 0, 0, 1920, 0, 960, 3840, 0, 0, 7680, 0, 3264, 15360, 1088, 0, 30720, 3840, 13056, 61440, 3840, 0, 126720, 0, 52224, 245760, 17280, 0, 495360, 65280, 206464, 983040, 61440, 13056, 2031360, 0, 833536, 3932160, 264960, 61440, 7929600, 1044480, 3376896, 15728640, 1032960, 61440, 32488192, 0, 13369344, 62976000, 4423680, 0, 126812160, 16711680, 52862464] := by
  decide

set_option maxRecDepth 4000 in
theorem sha1_sched2_c15 :
    List.foldl (fun acc _ => extendStep acc) [0, 0, 0, 0, 0, 0, 0, 0, 0, 0, 0, 0, 0, 0, 0, 480, 0, 0, 960, 0, 0, 1920, 0, 960, 3840, 0, 0, 7680, 0, 3264, 15360, 1088, 0, 30720, 3840, 13056, 61440, 3840, 0, 126720, 0, 52224, 245760, 17280, 0, 495360, 65280, 206464, 983040, 61440, 13056, 2031360, 0, 833536, 3932160, 264960, 61440, 7929600, 1044480, 3376896, 15728640, 1032960, 61440, 32488192, 0, 13369344, 62976000, 4423680, 0, 126812160, 16711680, 52862464]
      [56, 57, 58, 59] = [0, 0, 0, 0, 0, 0, 0, 0, 0, 0, 0, 0, 0, 0, 0, 480, 0, 0, 960, 0, 0, 1920, 0, 960, 3840, 0, 0, 7680, 0, 3264, 15360, 1088, 0, 30720, 3840, 13056, 61440, 3840, 0, 126720, 0, 52224, 245760, 17280, 0, 495360, 65280, 206464, 983040, 61440, 13056, 2031360, 0, 833536, 3932160, 264960, 61440, 7929600, 1044480, 3376896, 15728640, 1032960, 61440, 32488192, 0, 13369344, 62976000, 4423680, 0, 126812160, 16711680, 52862464, 251658240, 15790080, 3357696, 520062976] := by
  decide

set_option maxRecDepth 4000 in
theorem sha1_sched2_c16 :
    List.foldl (fun acc _ => extendStep acc) [0, 0, 0, 0, 0, 0, 0, 0, 0, 0, 0, 0, 0, 0, 0, 480, 0, 0, 960, 0, 0, 1920, 0, 960, 3840, 0, 0, 7680, 0, 3264, 15360, 1088, 0, 30720, 3840, 13056, 61440, 3840, 0, 126720, 0, 52224, 245760, 17280, 0, 495360, 65280, 206464, 983040, 61440, 13056, 2031360, 0, 833536, 3932160, 264960, 61440, 7929600, 1044480, 3376896, 15728640, 1032960, 61440, 32488192, 0, 13369344, 62976000, 4423680, 0, 126812160, 16711680, 52862464, 251658240, 15790080, 3357696, 520062976]
      [60, 61, 62, 63] = [0, 0, 0, 0, 0, 0, 0, 0, 0, 0, 0, 0, 0, 0, 0, 480, 0, 0, 960, 0, 0, 1920, 0, 960, 3840, 0, 0, 7680, 0, 3264, 15360, 1088, 0, 30720, 3840, 13056, 61440, 3840, 0, 126720, 0, 52224, 245760, 17280, 0, 495360, 65280, 206464, 983040, 61440, 13056, 2031360, 0, 833536, 3932160, 264960, 61440, 7929600, 1044480, 3376896, 15728640, 1032960, 61440, 32488192, 0, 13369344, 62976000, 4423680, 0, 126812160, 16711680, 52862464, 251658240, 15790080, 3357696, 520062976, 0, 213420032, 1006694400, 67783168] := by
  decide

set_option maxRecDepth 4000 in
theorem sha1_sched2_all : extendWords [0, 0, 0, 0, 0, 0, 0, 0, 0, 0, 0, 0, 0, 0, 0, 480] = [0, 0, 0, 0, 0, 0, 0, 0, 0, 0, 0, 0, 0, 0, 0, 480, 0, 0, 960, 0, 0, 1920, 0, 960, 3840, 0, 0, 7680, 0, 3264, 15360, 1088, 0, 30720, 3840, 13056, 61440, 3840, 0, 126720, 0, 52224, 245760, 17280, 0, 495360, 65280, 206464, 983040, 61440, 13056, 2031360, 0, 833536, 3932160, 264960, 61440, 7929600, 1044480, 3376896, 15728640, 1032960, 61440, 32488192, 0, 13369344, 62976000, 4423680, 0, 126812160, 16711680, 52862464, 251658240, 15790080, 3357696, 520062976, 0, 213420032, 1006694400, 67783168] := by
  simp only [extendWords]
  rw [show List.range 64 = [0, 1, 2, 3] ++ ([4, 5, 6, 7] ++ ([8, 9, 10, 11] ++ ([12, 13, 14, 15] ++ ([16, 17, 18, 19] ++ ([20, 21, 22, 23] ++ ([24, 25, 26, 27] ++ ([28, 29, 30, 31] ++ ([32, 33, 34, 35] ++ ([36, 37, 38, 39] ++ ([40, 41, 42, 43] ++ ([44, 45, 46, 47] ++ ([48, 49, 50, 51] ++ ([52, 53, 54, 55] ++ ([56, 57, 58, 59] ++ ([60, 61, 62, 63]))))))))))))))) from rfl]
  rw [List.foldl_append, sha1_sched2_c1, List.foldl_append, sha1_sched2_c2, List.foldl_append, sha1_sched2_c3, List.foldl_append, sha1_sched2_c4, List.foldl_append, sha1_sched2_c5, List.foldl_append, sha1_sched2_c6, List.foldl_append, sha1_sched2_c7, List.foldl_append, sha1_sched2_c8, List.foldl_append, sha1_sched2_c9, List.foldl_append, sha1_sched2_c10, List.foldl_append, sha1_sched2_c11, List.foldl_append, sha1_sched2_c12, List.foldl_append, sha1_sched2_c13, List.foldl_append, sha1_sched2_c14, List.foldl_append, sha1_sched2_c15, sha1_sched2_c16]

set_option maxRecDepth 4000 in
theorem sha1_enum2 : List.enum [0, 0, 0, 0, 0, 0, 0, 0, 0, 0, 0, 0, 0, 0, 0, 480, 0, 0, 960, 0, 0, 1920, 0, 960, 3840, 0, 0, 7680, 0, 3264, 15360, 1088, 0, 30720, 3840, 13056, 61440, 3840, 0, 126720, 0, 52224, 245760, 17280, 0, 495360, 65280, 206464, 983040, 61440, 13056, 2031360, 0, 833536, 3932160, 264960, 61440, 7929600, 1044480, 3376896, 15728640, 1032960, 61440, 32488192, 0, 13369344, 62976000, 4423680, 0, 126812160, 16711680, 52862464, 251658240, 15790080, 3357696, 520062976, 0, 213420032, 1006694400, 67783168] =
    [(0, 0), (1, 0), (2, 0), (3, 0), (4, 0), (5, 0), (6, 0), (7, 0), (8, 0), (9, 0), (10, 0), (11, 0), (12, 0), (13, 0), (14, 0), (15, 480), (16, 0), (17, 0), (18, 960), (19, 0), (20, 0), (21, 1920), (22, 0), (23, 960), (24, 3840), (25, 0), (26, 0), (27, 7680), (28, 0), (29, 3264), (30, 15360), (31, 1088), (32, 0), (33, 30720), (34, 3840), (35, 13056), (36, 61440), (37, 3840), (38, 0), (39, 126720), (40, 0), (41, 52224), (42, 245760), (43, 17280), (44, 0), (45, 495360), (46, 65280), (47, 206464), (48, 983040), (49, 61440), (50, 13056), (51, 2031360), (52, 0), (53, 833536), (54, 3932160), (55, 264960), (56, 61440), (57, 7929600), (58, 1044480), (59, 3376896), (60, 15728640), (61, 1032960), (62, 61440), (63, 32488192), (64, 0), (65, 13369344), (66, 62976000), (67, 4423680), (68, 0), (69, 126812160), (70, 16711680), (71, 52862464), (72, 251658240), (73, 15790080), (74, 3357696), (75, 520062976), (76, 0), (77, 213420032), (78, 1006694400), (79, 67783168)] := by
  decide

set_option maxRecDepth 4000 in
theorem sha1_rounds2_c1 :
    List.foldl sha1Round ⟨1540323111, 1931952490, 3195796473, 1517820024, 1581688034⟩
      [(0, 0), (1, 0), (2, 0), (3, 0), (4, 0), (5, 0), (6, 0), (7, 0)] = ⟨633346238, 3015428862, 3840506862, 3104797884, 3311490376⟩ := by
  decide

set_option maxRecDepth 4000 in
theorem sha1_rounds2_c2 :
    List.foldl sha1Round ⟨633346238, 3015428862, 3840506862, 3104797884, 3311490376⟩
      [(8, 0), (9, 0), (10, 0), (11, 0), (12, 0), (13, 0), (14, 0), (15, 480)] = ⟨2557342312, 2567666663, 2874211559, 425571511, 1229029483⟩ := by
  decide

set_option maxRecDepth 4000 in
theorem sha1_rounds2_c3 :
    List.foldl sha1Round ⟨2557342312, 2567666663, 2874211559, 425571511, 1229029483⟩
      [(16, 0), (17, 0), (18, 960), (19, 0), (20, 0), (21, 1920), (22, 0), (23, 960)] = ⟨1405564496, 1045527015, 272561126, 3297531594, 1249911508⟩ := by
  decide

set_option maxRecDepth 4000 in
theorem sha1_rounds2_c4 :
    List.foldl sha1Round ⟨1405564496, 1045527015, 272561126, 3297531594, 1249911508⟩
      [(24, 3840), (25, 0), (26, 0), (27, 7680), (28, 0), (29, 3264), (30, 15360), (31, 1088)] = ⟨1022815064, 4108179383, 3373250581, 3177131343, 3838441435⟩ := by
  decide

set_option maxRecDepth 4000 in
theorem sha1_rounds2_c5 :
    List.foldl sha1Round ⟨1022815064, 4108179383, 3373250581, 3177131343, 3838441435⟩
      [(32, 0), (33, 30720), (34, 3840), (35, 13056), (36, 61440), (37, 3840), (38, 0), (39, 126720)] = ⟨1869188890, 3338603731, 3730487228, 1601125563, 497322629⟩ := by
  decide

set_option maxRecDepth 4000 in
theorem sha1_rounds2_c6 :
    List.foldl sha1Round ⟨1869188890, 3338603731, 3730487228, 1601125563, 497322629⟩
      [(40, 0), (41, 52224), (42, 245760), (43, 17280), (44, 0), (45, 495360), (46, 65280), (47, 206464)] = ⟨2750383486, 3368920026, 3472246798, 4280218839, 3349467827⟩ := by
  decide

set_option maxRecDepth 4000 in
theorem sha1_rounds2_c7 :
    List.foldl sha1Round ⟨2750383486, 3368920026, 3472246798, 4280218839, 3349467827⟩
      [(48, 983040), (49, 61440), (50, 13056), (51, 2031360), (52, 0), (53, 833536), (54, 3932160), (55, 264960)] = ⟨2713092417, 1712181425, 186445662, 3885302157, 3623397622⟩ := by
  decide

set_option maxRecDepth 4000 in
theorem sha1_rounds2_c8 :
    List.foldl sha1Round ⟨2713092417, 1712181425, 186445662, 3885302157, 3623397622⟩
      [(56, 61440), (57, 7929600), (58, 1044480), (59, 3376896), (60, 15728640), (61, 1032960), (62, 61440), (63, 32488192)] = ⟨2777904208, 3589218007, 3292842979, 3721537416, 1434740678⟩ := by
  decide

set_option maxRecDepth 4000 in
theorem sha1_rounds2_c9 :
    List.foldl sha1Round ⟨2777904208, 3589218007, 3292842979, 3721537416, 1434740678⟩
      [(64, 0), (65, 13369344), (66, 62976000), (67, 4423680), (68, 0), (69, 126812160), (70, 16711680), (71, 52862464)] = ⟨3372779722, 4140937198, 1875812325, 1401786222, 39752775⟩ := by
  decide

set_option maxRecDepth 4000 in
theorem sha1_rounds2_c10 :
    List.foldl sha1Round ⟨3372779722, 4140937198, 1875812325, 1401786222, 39752775⟩
      [(72, 251658240), (73, 15790080), (74, 3357696), (75, 520062976), (76, 0), (77, 213420032), (78, 1006694400), (79, 67783168)] = ⟨1470814213, 1295715756, 3531229709, 1958756557, 1417158664⟩ := by
  decide

set_option maxRecDepth 4000 in
theorem sha1_fold2 : List.foldl sha1Round ⟨1540323111, 1931952490, 3195796473, 1517820024, 1581688034⟩
    [(0, 0), (1, 0), (2, 0), (3, 0), (4, 0), (5, 0), (6, 0), (7, 0), (8, 0), (9, 0), (10, 0), (11, 0), (12, 0), (13, 0), (14, 0), (15, 480), (16, 0), (17, 0), (18, 960), (19, 0), (20, 0), (21, 1920), (22, 0), (23, 960), (24, 3840), (25, 0), (26, 0), (27, 7680), (28, 0), (29, 3264), (30, 15360), (31, 1088), (32, 0), (33, 30720), (34, 3840), (35, 13056), (36, 61440), (37, 3840), (38, 0), (39, 126720), (40, 0), (41, 52224), (42, 245760), (43, 17280), (44, 0), (45, 495360), (46, 65280), (47, 206464), (48, 983040), (49, 61440), (50, 13056), (51, 2031360), (52, 0), (53, 833536), (54, 3932160), (55, 264960), (56, 61440), (57, 7929600), (58, 1044480), (59, 3376896), (60, 15728640), (61, 1032960), (62, 61440), (63, 32488192), (64, 0), (65, 13369344), (66, 62976000), (67, 4423680), (68, 0), (69, 126812160), (70, 16711680), (71, 52862464), (72, 251658240), (73, 15790080), (74, 3357696), (75, 520062976), (76, 0), (77, 213420032), (78, 1006694400), (79, 67783168)] = ⟨1470814213, 1295715756, 3531229709, 1958756557, 1417158664⟩ := by
  rw [show ([(0, 0), (1, 0), (2, 0), (3, 0), (4, 0), (5, 0), (6, 0), (7, 0), (8, 0), (9, 0), (10, 0), (11, 0), (12, 0), (13, 0), (14, 0), (15, 480), (16, 0), (17, 0), (18, 960), (19, 0), (20, 0), (21, 1920), (22, 0), (23, 960), (24, 3840), (25, 0), (26, 0), (27, 7680), (28, 0), (29, 3264), (30, 15360), (31, 1088), (32, 0), (33, 30720), (34, 3840), (35, 13056), (36, 61440), (37, 3840), (38, 0), (39, 126720), (40, 0), (41, 52224), (42, 245760), (43, 17280), (44, 0), (45, 495360), (46, 65280), (47, 206464), (48, 983040), (49, 61440), (50, 13056), (51, 2031360), (52, 0), (53, 833536), (54, 3932160), (55, 264960), (56, 61440), (57, 7929600), (58, 1044480), (59, 3376896), (60, 15728640), (61, 1032960), (62, 61440), (63, 32488192), (64, 0), (65, 13369344), (66, 62976000), (67, 4423680), (68, 0), (69, 126812160), (70, 16711680), (71, 52862464), (72, 251658240), (73, 15790080), (74, 3357696), (75, 520062976), (76, 0), (77, 213420032), (78, 1006694400), (79, 67783168)] : List (Nat × Nat)) = [(0, 0), (1, 0), (2, 0), (3, 0), (4, 0), (5, 0), (6, 0), (7, 0)] ++ ([(8, 0), (9, 0), (10, 0), (11, 0), (12, 0), (13, 0), (14, 0), (15, 480)] ++ ([(16, 0), (17, 0), (18, 960), (19, 0), (20, 0), (21, 1920), (22, 0), (23, 960)] ++ ([(24, 3840), (25, 0), (26, 0), (27, 7680), (28, 0), (29, 3264), (30, 15360), (31, 1088)] ++ ([(32, 0), (33, 30720), (34, 3840), (35, 13056), (36, 61440), (37, 3840), (38, 0), (39, 126720)] ++ ([(40, 0), (41, 52224), (42, 245760), (43, 17280), (44, 0), (45, 495360), (46, 65280), (47, 206464)] ++ ([(48, 983040), (49, 61440), (50, 13056), (51, 2031360), (52, 0), (53, 833536), (54, 3932160), (55, 264960)] ++ ([(56, 61440), (57, 7929600), (58, 1044480), (59, 3376896), (60, 15728640), (61, 1032960), (62, 61440), (63, 32488192)] ++ ([(64, 0), (65, 13369344), (66, 62976000), (67, 4423680), (68, 0), (69, 126812160), (70, 16711680), (71, 52862464)] ++ ([(72, 251658240), (73, 15790080), (74, 3357696), (75, 520062976), (76, 0), (77, 213420032), (78, 1006694400), (79, 67783168)]))))))))) from rfl]
  rw [List.foldl_append, sha1_rounds2_c1, List.foldl_append, sha1_rounds2_c2, List.foldl_append, sha1_rounds2_c3, List.foldl_append, sha1_rounds2_c4, List.foldl_append, sha1_rounds2_c5, List.foldl_append, sha1_rounds2_c6, List.foldl_append, sha1_rounds2_c7, List.foldl_append, sha1_rounds2_c8, List.foldl_append, sha1_rounds2_c9, sha1_rounds2_c10]

set_option maxRecDepth 4000 in
theorem sha1_state_b2 :
    (extendWords (toWords testBlock2)).enum.foldl sha1Round ⟨1540323111, 1931952490, 3195796473, 1517820024, 1581688034⟩ = ⟨1470814213, 1295715756, 3531229709, 1958756557, 1417158664⟩ := by
  rw [sha1_words2_start, sha1_sched2_all, sha1_enum2]
  exact sha1_fold2

set_option maxRecDepth 4000 in
theorem sha1Block_b2 : sha1Block ⟨1540323111, 1931952490, 3195796473, 1517820024, 1581688034⟩ testBlock2 = ⟨3011137324, 3227668246, 2432058886, 3476576581, 2998846698⟩ := by
  rw [sha1Block_eq _ _ _ sha1_state_b2]
  decide

set_option maxRecDepth 4000 in
theorem sha1_test_blocks :
    chunks64 (sha1Pad (strBytes ("dGhlIHNhbXBsZSBub25jZQ==" ++ webSocketMagicString)))
      = [testBlock1, testBlock2] := by
  decide

set_option maxRecDepth 4000 in
theorem sha1_test_digest :
    sha1 (strBytes ("dGhlIHNhbXBsZSBub25jZQ==" ++ webSocketMagicString)) =
    [179, 122, 79, 44, 192, 98, 79, 22, 144, 246, 70, 6, 207, 56, 89, 69, 178, 190, 196, 234] := by
  simp only [sha1, sha1_test_blocks, List.foldl_cons, List.foldl_nil,
    sha1Block_b1, sha1Block_b2]
  decide

set_option maxRecDepth 4000 in
theorem websocket_testvec :
    generateWebSocketServerKey "dGhlIHNhbXBsZSBub25jZQ==" =
      "s3pPLMBiTxaQ9kYGzzhZRbK+xOo=" := by
  show stringOfChars (base64_encode (sha1 (strBytes
    ("dGhlIHNhbXBsZSBub25jZQ==" ++ webSocketMagicString)))) = _
  rw [sha1_test_digest]
  decide

/-! ## Claim theorems -/

/-- C1: Admission by source IP — when the configured allowed-network
list is non-empty, a request whose peer address is a member of no listed
network is rejected with the not-authorized outcome; when the list is
empty, every peer address is admitted (never IP-rejected). -/
theorem hostsAllowed_admission (cfg : AdmissionConfig)
    (req : AdmissionRequest) :
    (cfg.hostsAllowed ≠ [] →
      (∀ net ∈ cfg.hostsAllowed, net.contains req.peerIp = false) →
      (accept_request cfg req).1 = AdmissionOutcome.notAuthorized) ∧
    (cfg.hostsAllowed = [] →
      ipAllowed cfg.hostsAllowed req.peerIp = true ∧
      (accept_request cfg req).1 ≠ AdmissionOutcome.notAuthorized) := by
  constructor
  · intro hne hmem
    have h1 : cfg.hostsAllowed.isEmpty = false := by
      cases h : cfg.hostsAllowed with
      | nil => exact absurd h hne
      | cons a l => rfl
    have h2 : cfg.hostsAllowed.any (fun net => net.contains req.peerIp)
        = false := by
      rw [List.any_eq_false]
      intro net hn
      simp [hmem net hn]
    have hip : ipAllowed cfg.hostsAllowed req.peerIp = false := by
      simp [ipAllowed, h1, h2]
    simp [accept_request, hip]
  · intro he
    have hip : ipAllowed cfg.hostsAllowed req.peerIp = true := by
      simp [ipAllowed, he]
    refine ⟨hip, ?_⟩
    simp only [accept_request, hip, if_true]
    by_cases hb : cfg.httpdAuth
    · rw [if_pos hb]
      rcases req.authB64 with _ | b64
      · simp
      · rcases hu : isUserAllowed cfg.authLoginPwdList b64 with _ | u <;>
          simp [hu]
    · rw [if_neg hb]
      simp

/-- C1 witness: a concrete peer outside the single listed network is
rejected; with an empty list, a concrete peer is admitted. -/
theorem hostsAllowed_admission_witness :
    (accept_request ⟨[⟨⟨32, 3232235520⟩, 24⟩], true, []⟩
        ⟨⟨32, 167772161⟩, none⟩).1 = AdmissionOutcome.notAuthorized ∧
    (accept_request ⟨[], true, []⟩ ⟨⟨32, 167772161⟩, none⟩).1
      ≠ AdmissionOutcome.notAuthorized :=
  ⟨(hostsAllowed_admission _ _).1 (by decide) (by decide),
   ((hostsAllowed_admission _ _).2 rfl).2⟩

/-- C2: base64 decode∘encode is the identity on arbitrary byte
sequences, and decoding is a total function whose every output is a
defined value (either a failure or a genuine byte list). -/
theorem base64_roundtrip_total :
    (∀ b : List Nat, (∀ x ∈ b, x < 256) →
      base64_decode (base64_encode b) = some b) ∧
    (∀ s : List Char, base64_decode s = none ∨
      ∃ bs, base64_decode s = some bs ∧ ∀ x ∈ bs, x < 256) :=
  ⟨base64_decode_encode, base64_decode_wellformed⟩

/-- C2 witness: the round-trip at a concrete byte sequence, plus the
decoder's defined failure on a concrete malformed input. -/
theorem base64_roundtrip_total_witness :
    (∀ x ∈ [104, 105, 255], x < 256) ∧
    base64_decode (base64_encode [104, 105, 255]) = some [104, 105, 255] ∧
    base64_decode ['*'] = none :=
  ⟨by decide, base64_roundtrip_total.1 [104, 105, 255] (by decide), rfl⟩

/-- C3: the accept key is exactly the base64 encoding of the SHA-1
digest of the client key concatenated with the fixed protocol magic
string — a pure function of the key, hence deterministic — and it
reproduces the RFC 6455 test vector. -/
theorem generateWebSocketServerKey_spec :
    (∀ k : String, generateWebSocketServerKey k =
      stringOfChars (base64_encode (sha1 (strBytes
        (k ++ webSocketMagicString))))) ∧
    generateWebSocketServerKey "dGhlIHNhbXBsZSBub25jZQ==" =
      "s3pPLMBiTxaQ9kYGzzhZRbK+xOo=" :=
  ⟨fun _ => rfl, websocket_testvec⟩

/-- C4 counterexample: the claim fails on the code — the class declares
no `peerIpHistory_mutex` member, so not every history map has its own
dedicated lock. -/
theorem historyMap_mutex_counterexample :
    ¬ ∀ m ∈ historyMaps, (m ++ "_mutex") ∈ webServerFields := by
  decide

/-- C4 (amended): the login-history and DN-history maps each have a
dedicated mutex member, but `peerIpHistory` has no dedicated mutex of
its own. -/
theorem historyMap_mutex_inventory :
    ("usersAuthHistory" ++ "_mutex") ∈ webServerFields ∧
    ("peerDnHistory" ++ "_mutex") ∈ webServerFields ∧
    ("peerIpHistory" ++ "_mutex") ∉ webServerFields := by
  decide

/-- C5: admission is ordered — a request that fails the source-IP check
is rejected not-authorized and `isUserAllowed` (base64 credential
decoding) is never invoked for it. -/
theorem ip_reject_skips_credentials (cfg : AdmissionConfig)
    (req : AdmissionRequest)
    (h : ipAllowed cfg.hostsAllowed req.peerIp = false) :
    (accept_request cfg req).1 = AdmissionOutcome.notAuthorized ∧
    (accept_request cfg req).2 = false := by
  simp [accept_request, h]

/-- C5 witness: a concrete request outside the allow-list, carrying
credentials, never reaches the credential decoder. -/
theorem ip_reject_skips_credentials_witness :
    ipAllowed [⟨⟨32, 3232235520⟩, 24⟩] ⟨32, 167772161⟩ = false ∧
    (accept_request ⟨[⟨⟨32, 3232235520⟩, 24⟩], true, ["u:p"]⟩
      ⟨⟨32, 167772161⟩, some "dTpw"⟩).2 = false :=
  ⟨by decide, (ip_reject_skips_credentials _ _ (by decide)).2⟩

/-- C6: `freeClientSockData` on NULL is a no-op; otherwise it closes the
socket, frees the DN string when present (nulling the pointer before the
structure is freed), and frees the structure; and every pipeline exit
path releases the connection exactly once (no double-close, no leak). -/
theorem freeClientSockData_release :
    freeClientSockData none = [] ∧
    (∀ c : ClientSockData, c.peerDN = none →
      freeClientSockData (some c) =
        [ReleaseAction.closeSock, ReleaseAction.freeStruct]) ∧
    (∀ (c : ClientSockData) (dn : String), c.peerDN = some dn →
      freeClientSockData (some c) =
        [ReleaseAction.closeSock, ReleaseAction.freeDN,
         ReleaseAction.setDNNull, ReleaseAction.freeStruct]) ∧
    (∀ (c : ClientSockData) (ex : PipelineExit),
      (runPipeline c ex).count ReleaseAction.freeStruct = 1 ∧
      (runPipeline c ex).count ReleaseAction.closeSock = 1) := by
  refine ⟨rfl, ?_, ?_, ?_⟩
  · intro c hc
    simp [freeClientSockData, hc]
  · intro c dn hc
    simp [freeClientSockData, hc]
  · intro c ex
    rcases hc : c.peerDN with _ | dn <;> rcases ex <;>
      simp [runPipeline, freeClientSockData, hc, List.count_cons]

/-- C6 witness: the concrete release traces with and without a DN. -/
theorem freeClientSockData_release_witness :
    freeClientSockData (some ⟨some "CN=alice"⟩) =
      [ReleaseAction.closeSock, ReleaseAction.freeDN,
       ReleaseAction.setDNNull, ReleaseAction.freeStruct] ∧
    freeClientSockData (some ⟨none⟩) =
      [ReleaseAction.closeSock, ReleaseAction.freeStruct] :=
  ⟨freeClientSockData_release.2.2.1 ⟨some "CN=alice"⟩ "CN=alice" rfl,
   freeClientSockData_release.2.1 ⟨none⟩ rfl⟩

/-- C7: `stopService` signals shutdown and clears the thread handle
itself — afterwards `isRunning` is false, for every prior state and in
particular whatever the exited-worker count (worker termination plays no
part, and the counter is untouched). -/
theorem stopService_clears_handle (s : ServerLifecycle) :
    isRunning (stopService s) = false ∧
    (stopService s).exiting = true ∧
    (stopService s).exitedThread = s.exitedThread :=
  ⟨rfl, rfl, rfl⟩

/-- C8 counterexample: the claim fails on the code — the getters return
references, not read-only snapshots, so a caller's write through the
value returned by `getPeerIpHistory` does change the server's internal
history state. -/
theorem history_getter_mutable_counterexample :
    writeThroughRef ⟨[], []⟩ (getPeerIpHistory ⟨[], []⟩).1
      (⟨⟨32, 167772161⟩, 0⟩) ⟨"CN=alice", 0⟩ ≠ (⟨[], []⟩ : HistoryState) := by
  decide

/-- C8 (amended): calling either getter leaves all server state
unchanged, but each returns a mutable reference to the internal map —
a caller's write through the returned reference mutates the server's
history state. -/
theorem history_getters_reference_semantics (s : HistoryState)
    (ipe : IpAddress × Nat) (dne : String × Nat) :
    (getPeerIpHistory s).2 = s ∧ (getPeerDnHistory s).2 = s ∧
    (writeThroughRef s (getPeerIpHistory s).1 ipe dne).peerIpHistory
      = ipe :: s.peerIpHistory ∧
    (writeThroughRef s (getPeerDnHistory s).1 ipe dne).peerDnHistory
      = dne :: s.peerDnHistory :=
  ⟨rfl, rfl, rfl, rfl⟩

/-- C9: `setWebServerName` writes the class-wide static string: after
any one instance calls it, every instance observes the new name in its
response headers. -/
theorem setWebServerName_classwide (s : WebServerClassState)
    (caller other : Nat) (n : String) :
    observedServerName (setWebServerName s caller n) other = n := rfl

/-- C10: `addLoginPass` stores only the concatenation
`login + ":" + pass`, so the credential pairs `(a, b:c)` and `(a:b, c)`
produce identical stored entries and are indistinguishable to the
Basic-auth check. -/
theorem addLoginPass_colon_ambiguity (lst : List String) (a b c : String) :
    addLoginPass lst a (b ++ ":" ++ c) = addLoginPass lst (a ++ ":" ++ b) c ∧
    ∀ logpassb64,
      isUserAllowed (addLoginPass lst a (b ++ ":" ++ c)) logpassb64
        = isUserAllowed (addLoginPass lst (a ++ ":" ++ b) c) logpassb64 := by
  have hassoc : a ++ ":" ++ (b ++ ":" ++ c) = a ++ ":" ++ b ++ ":" ++ c := by
    simp [String.append_assoc]
  exact ⟨by simp [addLoginPass, hassoc], fun l => by
    simp [addLoginPass, hassoc]⟩

end LibNavajo
